import Mathlib

/-!
Verification of the knowledge-extraction / hybrid-retrieval core of the
house-of-dandori repository.

The Python sources embedded here (shallowly, as executable Lean functions):
  * src/services/graph_builders.py      (triple + relationship builders, analytics)
  * src/services/graph_rag_service.py   (a second, older copy of the builders)
  * src/services/chunk_builder.py       (CourseChunkBuilder)
  * src/services/base_rag_service.py    (sanitize_metadata, result shaping)
  * src/services/graph_store.py         (Neo4j store + factory registry)
  * src/services/neo4j_graph_store.py   (duplicate Neo4j store wrapper)

Python dictionaries are modelled as insertion-ordered association lists,
Python primitive metadata values by the inductive `MVal`, and Python string
truthiness by emptiness tests.  Courses are modelled after the shape produced
by `parse_json_fields` (list-valued JSON fields already decoded to lists).
Functions that call into external libraries (sklearn's KMeans labels, the
sklearn English stop-word list, the Neo4j driver) take those external pieces
as explicit parameters.
-/

/-- A primitive Python metadata value (str / int / bool), as accepted by
`sanitize_metadata`. -/
inductive MVal where
  | str (s : String)
  | int (n : Int)
  | bool (b : Bool)
deriving DecidableEq, Repr

/-- Python truthiness of a primitive value. -/
def MVal.truthy : MVal → Bool
  | .str s => !s.isEmpty
  | .int n => decide (n ≠ 0)
  | .bool b => b

/-- Python `str(value)` on a primitive value. -/
def MVal.pyStr : MVal → String
  | .str s => s
  | .int n => toString n
  | .bool b => if b then "True" else "False"

/-- Truthiness of `dict.get(key)`: `None` is falsy. -/
def optTruthy : Option MVal → Bool
  | none => false
  | some v => v.truthy

/-- Truthiness of an optional string (`None` and `""` are falsy). -/
def optStrTruthy : Option String → Bool
  | none => false
  | some s => !s.isEmpty

/-- Python `base.update(m)` on insertion-ordered dicts: keys of `m` override
values in place, new keys are appended in `m`'s order. -/
def dictUpdate (base m : List (String × α)) : List (String × α) :=
  (base.map fun kv =>
    match m.lookup kv.1 with
    | some v => (kv.1, v)
    | none => kv) ++
  m.filter fun kv => (base.lookup kv.1).isNone

/-- `sanitize_metadata` from base_rag_service.py (and its `_sanitize_metadata`
copy in graph_rag_service.py): drop `None` values, keep primitives.  The
`str(value)` fallback branch is unreachable for `MVal` inputs. -/
def sanitize_metadata (md : List (String × Option MVal)) : List (String × MVal) :=
  md.filterMap fun kv =>
    match kv.2 with
    | none => none
    | some v => some (kv.1, v)

/-- Python `str.lower()` (ASCII). -/
def pyLower (s : String) : String :=
  ⟨s.data.map Char.toLower⟩

/-- Python `str.strip()` (whitespace on both ends). -/
def pyStrip (s : String) : String :=
  ⟨((s.data.dropWhile Char.isWhitespace).reverse.dropWhile Char.isWhitespace).reverse⟩

/-- Python `s.endswith(suffix)`. -/
def strEndsWith (s suffix : String) : Bool :=
  suffix.data.isSuffixOf s.data

/-- Python `s[:-n]` for `n > 0` (drop the last `n` characters). -/
def strDropRight (s : String) (n : Nat) : String :=
  ⟨s.data.take (s.data.length - n)⟩

/-- Python `len(s)` (code points). -/
def strLen (s : String) : Nat :=
  s.data.length

/-- Character class of the slug regex replacement: `[a-z0-9]` is kept,
everything else is folded into underscores. -/
def isSlugKeep (c : Char) : Bool :=
  (decide ('a' ≤ c) && decide (c ≤ 'z')) || (decide ('0' ≤ c) && decide (c ≤ '9'))

/-- Collapse each run of consecutive underscores to a single underscore:
together with `isSlugKeep` this models `re.sub(r"[^a-z0-9]+", "_", ...)`. -/
def collapseUS : List Char → List Char
  | [] => []
  | a :: rest =>
    match rest with
    | [] => [a]
    | b :: _ =>
      if a = '_' && b = '_' then collapseUS rest else a :: collapseUS rest

/-- Python `str.strip("_")`. -/
def stripUS (l : List Char) : List Char :=
  ((l.dropWhile (· = '_')).reverse.dropWhile (· = '_')).reverse

/-- `_slugify` from graph_builders.py / graph_rag_service.py:
`re.sub(r"[^a-z0-9]+", "_", value.strip().lower()).strip("_")`. -/
def slugify (value : String) : String :=
  ⟨stripUS (collapseUS (((pyStrip value).data.map Char.toLower).map
    fun c => if isSlugKeep c then c else '_'))⟩

/-- Python `str.title()` (capitalize letters after non-letters, lowercase the
rest; ASCII approximation of "cased"). -/
def pyTitleGo : Bool → List Char → List Char
  | _, [] => []
  | prev, c :: rest =>
    if c.isAlpha then
      (if prev then c.toLower else c.toUpper) :: pyTitleGo true rest
    else c :: pyTitleGo false rest

/-- Python `str.title()`. -/
def pyTitle (s : String) : String :=
  ⟨pyTitleGo false s.data⟩

/-- Python substring test `needle in hay`. -/
def strContains (hay needle : String) : Bool :=
  hay.data.tails.any fun t => needle.data.isPrefixOf t

/-- Tail characters of the token regex `[a-zA-Z][a-zA-Z'\-]+`. -/
def isWordTail (c : Char) : Bool :=
  c.isAlpha || c = '\'' || c = '-'

/-- Scanner for `TOKEN_PATTERN.findall`: `none` means "between matches", and
`some (f, acc)` means a match began at `f` and has collected the reversed
tail characters `acc`.  A character that cannot extend a match is never a
match start itself (the tail class contains the head class), so the scanner
is plain structural recursion. -/
def ftGo : Option (Char × List Char) → List Char → List (List Char)
  | none, [] => []
  | some (f, acc), [] => if acc.isEmpty then [] else [f :: acc.reverse]
  | none, c :: rest => if c.isAlpha then ftGo (some (c, [])) rest else ftGo none rest
  | some (f, acc), c :: rest =>
    if isWordTail c then ftGo (some (f, c :: acc)) rest
    else (if acc.isEmpty then [] else [f :: acc.reverse]) ++ ftGo none rest

/-- `TOKEN_PATTERN.findall`: non-overlapping left-to-right matches of
`[a-zA-Z][a-zA-Z'\-]+` (a single letter with no tail is not a match). -/
def findTokens (l : List Char) : List (List Char) :=
  ftGo none l

/-- Counter bump preserving first-insertion key order (`collections.Counter`). -/
def bumpCount [DecidableEq α] (k : α) : List (α × Nat) → List (α × Nat)
  | [] => [(k, 1)]
  | (k', n) :: rest =>
    if k' = k then (k', n + 1) :: rest else (k', n) :: bumpCount k rest

/-- Count all occurrences, keys in first-occurrence order. -/
def countAll [DecidableEq α] (keys : List α) : List (α × Nat) :=
  keys.foldl (fun acc k => bumpCount k acc) []

/-- Stable insertion preserving existing equal elements before the new one. -/
def insertStable (le : α → α → Bool) (x : α) : List α → List α
  | [] => [x]
  | y :: ys => if le y x then y :: insertStable le x ys else x :: y :: ys

/-- Stable sort (models Python's stable `sorted`). -/
def sortStable (le : α → α → Bool) (l : List α) : List α :=
  l.foldl (fun acc x => insertStable le x acc) []

/-- Lexicographic order on char lists (Python string comparison). -/
def ltCharList : List Char → List Char → Bool
  | [], [] => false
  | [], _ :: _ => true
  | _ :: _, [] => false
  | a :: as, b :: bs =>
    if a < b then true else if b < a then false else ltCharList as bs

/-- Python `a <= b` on strings. -/
def leStr (a b : String) : Bool :=
  !(ltCharList b.data a.data)

/-- Order on counted n-grams used by `Counter.most_common` (count descending,
stable, so ties keep first-insertion order). -/
def geCount (a b : α × Nat) : Bool :=
  b.2 ≤ a.2

/-- First-occurrence deduplication (`dict.fromkeys`). -/
def dedupFirst [DecidableEq α] (l : List α) : List α :=
  l.foldl (fun acc x => if x ∈ acc then acc else acc ++ [x]) []

/-- `itertools.combinations(l, k)` in its enumeration order. -/
def combosK : Nat → List α → List (List α)
  | 0, _ => [[]]
  | _ + 1, [] => []
  | k + 1, x :: xs => (combosK k xs).map (x :: ·) ++ combosK (k + 1) xs

/-- Split a list into consecutive batches of `max 1 n` elements
(`range(0, len(l), batch_size)` slicing with `batch_size = max(1, n)`). -/
def chunkGo (n : Nat) : Nat → List α → List (List α)
  | _, [] => []
  | 0, l => [l]
  | fuel + 1, x :: xs =>
    ((x :: xs).take (max 1 n)) :: chunkGo n fuel ((x :: xs).drop (max 1 n))

/-- Batch splitting with enough fuel for every step (each step consumes at
least one element, so the zero-fuel fallback is unreachable). -/
def chunkList (n : Nat) (l : List α) : List (List α) :=
  chunkGo n l.length l

/-- Split a char list at every colon (used to reason about the `::`-separated
structure of triple ids; slugs are colon-free). -/
def splitC : List Char → List (List Char)
  | [] => [[]]
  | c :: rest =>
    if c = ':' then [] :: splitC rest
    else
      match splitC rest with
      | [] => [[c]]
      | h :: t => (c :: h) :: t

/-- A course record as produced by `parse_json_fields` (JSON-encoded list
fields already decoded into lists; `parse_json_fields` is then the identity
on this shape, so it is not modelled separately). -/
structure Course where
  id : Option MVal := none
  class_id : Option MVal := none
  title : Option String := none
  instructor : Option String := none
  location : Option String := none
  course_type : Option String := none
  cost : Option MVal := none
  description : Option String := none
  skills : Option (List String) := none
  learning_objectives : Option (List String) := none
  provided_materials : Option (List String) := none
deriving DecidableEq, Repr

/-- Python `a or b` on optional primitive values. -/
def pyOrM (a b : Option MVal) : Option MVal :=
  if optTruthy a then a else b

/-- Optional string lifted into the metadata value space. -/
def omStr (o : Option String) : Option MVal :=
  o.map .str

/-- A `{id, text, metadata}` record: both chunks and triples have this shape. -/
structure Payload where
  id : String
  text : String
  metadata : List (String × MVal)
deriving DecidableEq, Repr

namespace ChunkBuilder

/-- `_slugify` from chunk_builder.py (per-character replacement, no run
collapsing, `"item"` fallbacks). -/
def slugifyChunk (value : Option String) : String :=
  match value with
  | none => "item"
  | some v =>
    if v.isEmpty then "item"
    else
      let sanitized := (pyLower v).data.map fun c => if c.isAlphanum then c else '_'
      let stripped := stripUS sanitized
      if stripped.isEmpty then "item" else ⟨stripped⟩

/-- `_course_identifier` from chunk_builder.py. -/
def course_identifier (course : Course) : String :=
  let cid := pyOrM course.id course.class_id
  if optTruthy cid then (cid.getD (.str "")).pyStr
  else slugifyChunk (some (if optStrTruthy course.title then course.title.getD "" else "course"))

/-- `CourseChunkBuilder._metadata`. -/
def chunkMetadata (course : Course) : List (String × MVal) :=
  sanitize_metadata
    [("course_id", course.id),
     ("class_id", course.class_id),
     ("title", omStr course.title),
     ("course_type", omStr course.course_type),
     ("location", omStr course.location),
     ("instructor", omStr course.instructor),
     ("cost", course.cost)]

/-- Python `str.rstrip()`. -/
def pyRstrip (s : String) : String :=
  ⟨(s.data.reverse.dropWhile Char.isWhitespace).reverse⟩

/-- `CourseChunkBuilder._truncate`: truncate to `max_chars` characters
(when set and exceeded) with a trailing ellipsis. -/
def truncateChunk (maxChars : Option Nat) (text : String) : String :=
  match maxChars with
  | none => text
  | some m => if 0 < m && decide (m < text.data.length)
      then pyRstrip ⟨text.data.take m⟩ ++ "…"
      else text

/-- Chunks for one of the list-valued fields in simple mode (the chunk index
counts every entry, blank or not, exactly as `enumerate` does). -/
def listFieldChunks (uid : String) (metadata : List (String × MVal))
    (label : String) (values : Option (List String)) : List Payload :=
  (values.getD []).enum.filterMap fun p =>
    let text := pyStrip p.2
    if text.isEmpty then none
    else some ⟨uid ++ "_" ++ label ++ "_" ++ toString p.1, text, metadata⟩

/-- A single-string field chunk in simple mode (description / title). -/
def singleFieldChunk (maxChars : Option Nat) (uid : String)
    (metadata : List (String × MVal)) (label : String) (value : Option String) :
    List Payload :=
  let text := pyStrip (value.getD "")
  if text.isEmpty then []
  else [⟨uid ++ "_" ++ label, truncateChunk maxChars text, metadata⟩]

/-- `CourseChunkBuilder._build_simple_chunks`. -/
def build_simple_chunks (maxChars : Option Nat) (course : Course) : List Payload :=
  let metadata := chunkMetadata course
  let uid := course_identifier course
  listFieldChunks uid metadata "skill" course.skills ++
  listFieldChunks uid metadata "objective" course.learning_objectives ++
  listFieldChunks uid metadata "material" course.provided_materials ++
  singleFieldChunk maxChars uid metadata "description" course.description ++
  singleFieldChunk maxChars uid metadata "title" course.title

/-- `value or "Unknown"` for the fixed narrative header lines. -/
def orUnknown (o : Option String) : String :=
  if optStrTruthy o then o.getD "" else "Unknown"

/-- `_join` inside `_build_narrative_chunks`. -/
def joinSection (label : String) (values : Option (List String)) : List String :=
  match values with
  | none => []
  | some vs =>
    if vs.isEmpty then []
    else
      let filtered := vs.filter fun v => !v.isEmpty
      if filtered.isEmpty then []
      else [label ++ ": " ++ String.intercalate ", " filtered]

/-- `CourseChunkBuilder._build_narrative_chunks`. -/
def build_narrative_chunks (maxChars : Option Nat) (course : Course) : List Payload :=
  if !optStrTruthy course.title then []
  else
    let title := course.title.getD ""
    let uid := course_identifier course
    let metadata := chunkMetadata course
    let sections : List String :=
      ["Course Title: " ++ title,
       "Course Type: " ++ orUnknown course.course_type,
       "Instructor: " ++ orUnknown course.instructor,
       "Location: " ++ orUnknown course.location] ++
      joinSection "Skills" course.skills ++
      joinSection "Learning Objectives" course.learning_objectives ++
      joinSection "Provided Materials" course.provided_materials ++
      (if optStrTruthy course.description
       then ["Description: " ++ course.description.getD ""] else [])
    let text := String.intercalate ". "
      ((sections.filter fun p => !p.isEmpty).map pyStrip)
    [⟨"chunk::" ++ uid, truncateChunk maxChars text, metadata⟩]

/-- `CourseChunkBuilder.build` in simple mode. -/
def build_simple (maxChars : Option Nat) (courses : List Course) : List Payload :=
  (courses.map (build_simple_chunks maxChars)).join

/-- `CourseChunkBuilder.build` in narrative mode. -/
def build_narrative (maxChars : Option Nat) (courses : List Course) : List Payload :=
  (courses.map (build_narrative_chunks maxChars)).join

end ChunkBuilder

namespace GraphBuilders

/-- `NOISE_TOKENS`. -/
def NOISE_TOKENS : List String := ["skill", "skills"]

/-- `DEFAULT_THEME_NAMES`. -/
def DEFAULT_THEME_NAMES : List String :=
  ["Creative Arts and Design Cluster",
   "Culinary Arts and Food Cluster",
   "Textile and Fiber Crafts Cluster",
   "Nature and Wildlife Cluster",
   "Historical and General Skills Cluster"]

/-- `COURSE_TYPE_THEME_MAP`. -/
def COURSE_TYPE_THEME_MAP : List (String × String) :=
  [("Culinary Arts", "Culinary Arts and Food Cluster"),
   ("Fiber Arts", "Textile and Fiber Crafts Cluster"),
   ("Nature Crafts", "Nature and Wildlife Cluster"),
   ("Traditional Skills", "Historical and General Skills Cluster")]

/-- `DEFAULT_CANDIDATE_PHRASES` (a Python set literal; it is only ever
consumed through `sorted(...)`, so the listing order here is immaterial). -/
def DEFAULT_CANDIDATE_PHRASES : List String :=
  ["Creative Cooking", "Food Presentation", "Flavour Pairing",
   "Creative Writing", "Cultural History", "Wildlife Conservation",
   "Design Skills", "Fiber Arts", "Creative Design",
   "Mindfulness Crafting", "Stress Relief", "Storytelling", "Animal Care"]

/-- `BASE_PREDICATES` (field name, predicate name). -/
def BASE_PREDICATES : List (String × String) :=
  [("instructor", "has_instructor"),
   ("course_type", "is_of_type"),
   ("location", "taught_at")]

/-- `course.get(field)` for the base-predicate string fields. -/
def courseStrField (course : Course) : String → Option String
  | "instructor" => course.instructor
  | "course_type" => course.course_type
  | "location" => course.location
  | _ => none

/-- `GRAPH_OBJECT_TYPES`. -/
def GRAPH_OBJECT_TYPES : List (String × String) :=
  [("has_instructor", "instructor"),
   ("is_of_type", "course_type"),
   ("taught_at", "location"),
   ("teaches_concept", "concept"),
   ("develops_proficiency_in", "skill"),
   ("provides_material", "material"),
   ("belongs_to_theme", "theme")]

/-- `predicate.replace('_', ' ')`. -/
def predicateText (predicate : String) : String :=
  ⟨predicate.data.map fun c => if c = '_' then ' ' else c⟩

/-- The slug-based triple identifier used by `_triple_payload`. -/
def tripleId (subject predicate obj : String) : String :=
  "kg::" ++ slugify subject ++ "::" ++ slugify predicate ++ "::" ++ slugify obj

/-- `_triple_payload` (shared verbatim between graph_builders.py and
graph_rag_service.py).  The optional `metadata` dict is passed as a list
(`[]` models `None`; updating with an empty dict is a no-op). -/
def triple_payload (subject predicate obj : String)
    (metadata : List (String × Option MVal)) : Payload :=
  { id := tripleId subject predicate obj
    text := subject ++ " " ++ predicateText predicate ++ " " ++ obj
    metadata := sanitize_metadata (dictUpdate
      [("subject", some (.str subject)),
       ("predicate", some (.str predicate)),
       ("object", some (.str obj))] metadata) }

/-- `_node_uid`. -/
def node_uid (name : String) (suffix : Option MVal) : String :=
  let base := if name.isEmpty then "node" else slugify name
  let base :=
    if optTruthy suffix then
      let suffixSlug := slugify ((suffix.getD (.str "")).pyStr)
      if suffixSlug.isEmpty then base else base ++ "_" ++ suffixSlug
    else base
  if base.isEmpty then "node" else base

/-- `GRAPH_RESERVED_METADATA_KEYS`. -/
def GRAPH_RESERVED_METADATA_KEYS : List String := ["subject", "object", "predicate"]

/-- `_graph_node_props` (the `str(value)` fallback is unreachable for
primitive metadata values). -/
def graph_node_props (name : String) (metadata : List (String × MVal))
    (entityType : String) (suffix : Option MVal) : String × List (String × MVal) :=
  let uid := node_uid name suffix
  let props :=
    [("uid", MVal.str uid),
     ("name", MVal.str (if name.isEmpty then pyTitle entityType else name)),
     ("entity_type", MVal.str entityType)] ++
    metadata.filter fun kv => !(GRAPH_RESERVED_METADATA_KEYS.contains kv.1)
  (uid, props)

/-- `_subject_metadata`. -/
def subject_metadata (md : List (String × MVal)) : List (String × MVal) :=
  ["course_id", "class_id", "title"].filterMap fun k => (md.lookup k).map ((k, ·))

/-- `_object_metadata`. -/
def object_metadata (md : List (String × MVal)) : List (String × MVal) :=
  match md.lookup "term" with
  | some v => [("term", v)]
  | none => []

/-- One relationship row produced by `build_graph_relationships`. -/
structure GraphRel where
  subject_id : String
  subject_props : List (String × MVal)
  object_id : String
  object_props : List (String × MVal)
  rel_id : String
  rel_props : List (String × MVal)
deriving DecidableEq, Repr

/-- `build_graph_relationships`.  Rows whose metadata lacks a truthy string
subject/object/predicate are skipped (builder outputs always carry string
values for those keys; non-string truthy values would crash the Python
slugifier and cannot be produced by the builders). -/
def build_graph_relationships (triples : List Payload) : List GraphRel :=
  triples.filterMap fun triple =>
    match triple.metadata.lookup "subject", triple.metadata.lookup "object",
        triple.metadata.lookup "predicate" with
    | some (.str subject), some (.str obj), some (.str predicate) =>
      if subject.isEmpty || obj.isEmpty || predicate.isEmpty then none
      else
        let subjectMeta := subject_metadata triple.metadata
        let objectMeta := object_metadata triple.metadata
        let sp := graph_node_props subject subjectMeta "course"
          (pyOrM (subjectMeta.lookup "course_id") (subjectMeta.lookup "class_id"))
        let objectType := (GRAPH_OBJECT_TYPES.lookup predicate).getD "entity"
        let op := graph_node_props obj objectMeta objectType
          (pyOrM (objectMeta.lookup "term") (some (.str obj)))
        let relProps :=
          [("predicate", MVal.str predicate), ("text", MVal.str triple.text)] ++
          (["course_id", "class_id", "title"].filterMap fun k =>
            (subjectMeta.lookup k).map ((k, ·))) ++
          (match objectMeta.lookup "term" with
           | some t => [("object_term", t)]
           | none => [])
        some { subject_id := sp.1, subject_props := sp.2,
               object_id := op.1, object_props := op.2,
               rel_id := triple.id, rel_props := relProps }
    | _, _, _ => none

/-- The dedup state of a build: the `seen` id set (which at all times equals
exactly the ids of the accumulated triples) paired with the triples. -/
abbrev BuildState := List String × List Payload

/-- Emit a payload unless its id was already seen. -/
def emitIfNew (st : BuildState) (payload : Payload) : BuildState :=
  if payload.id ∈ st.1 then st else (st.1 ++ [payload.id], st.2 ++ [payload])

/-- The base-predicate phase of `build_kg_triples` (graph_builders.py,
lines 223-250): one triple per truthy base field, id-deduplicated via the
per-build `seen` set. -/
def base_kg_triples (courses : List Course) : List Payload :=
  (courses.foldl (fun (st : BuildState) course =>
    if !optStrTruthy course.title then st
    else
      let title := course.title.getD ""
      let metadataBase : List (String × Option MVal) :=
        [("course_id", course.id), ("class_id", course.class_id),
         ("title", some (.str title))]
      BASE_PREDICATES.foldl (fun st pred =>
        if !optStrTruthy (courseStrField course pred.1) then st
        else emitIfNew st (triple_payload title pred.2
          ((courseStrField course pred.1).getD "") metadataBase)) st)
    ([], [])).2

end GraphBuilders

namespace GraphBuilders

/-- `token in self.stopwords` where `self.stopwords` is the sklearn English
stop-word set (passed in as `stop`; the empty function when sklearn is
absent) unioned with `NOISE_TOKENS`. -/
def isStopword (stop : String → Bool) (t : String) : Bool :=
  stop t || NOISE_TOKENS.contains t

/-- `CourseTextAnalytics._combine_course_text`. -/
def combine_course_text (course : Course) : String :=
  let parts :=
    (course.skills.getD []) ++
    (course.learning_objectives.getD []) ++
    (course.provided_materials.getD []) ++
    (match course.description with
     | some s => if s.isEmpty then [] else [s]
     | none => [])
  String.intercalate " " (parts.filter fun p => !p.isEmpty)

/-- `CourseTextAnalytics._lemmatize` (graph_builders.py copy, with the
`-ss` guard on the trailing-`s` rule). -/
def lemmatize (token : String) : String :=
  if strEndsWith token "ies" && decide (3 < strLen token) then strDropRight token 3 ++ "y"
  else if strEndsWith token "ing" && decide (4 < strLen token) then strDropRight token 3
  else if strEndsWith token "ed" && decide (3 < strLen token) then strDropRight token 2
  else if strEndsWith token "s" && decide (3 < strLen token) && !strEndsWith token "ss" then
    strDropRight token 1
  else token

/-- `CourseTextAnalytics._tokenize`: regex findall, lowercase, stop-word
filter on the raw token, then lemmatize. -/
def tokenize (stop : String → Bool) (text : String) : List String :=
  let toks := (findTokens text.data).map fun cs => pyLower ⟨cs⟩
  (toks.filter fun t => !isStopword stop t).map lemmatize

/-- One record of `CourseTextAnalytics._build_records`. -/
structure ARecord where
  course : Course
  course_id : Option MVal
  title : String
  text : String
  tokens : List String
deriving DecidableEq, Repr

/-- `CourseTextAnalytics._build_records`: untitled courses are skipped. -/
def build_records (stop : String → Bool) (courses : List Course) : List ARecord :=
  courses.filterMap fun course =>
    if !optStrTruthy course.title then none
    else
      let blob := combine_course_text course
      some { course
             course_id := pyOrM course.id course.class_id
             title := course.title.getD ""
             text := pyLower blob
             tokens := tokenize stop blob }

/-- Corpus-wide frequency of a token (`token_counter`). -/
def tokenFrequency (records : List ARecord) (tk : String) : Nat :=
  records.foldl (fun n r => n + r.tokens.count tk) 0

/-- Distinct-course coverage of a token (`course_presence`). -/
def tokenCoverage (records : List ARecord) (tk : String) : Nat :=
  (dedupFirst ((records.filter fun r => tk ∈ r.tokens).map (·.course_id))).length

/-- `_token_statistics` + `_select_top_tokens`: tokens meeting both the
frequency (≥ 40) and coverage (≥ 20) thresholds, sorted. -/
def top_tokens (records : List ARecord) : List String :=
  sortStable leStr ((dedupFirst ((records.map (·.tokens)).flatten)).filter fun tk =>
    decide (40 ≤ tokenFrequency records tk) && decide (20 ≤ tokenCoverage records tk))

/-- `_extract_flexible_phrases`: windowed sorted 2- and 3-gram counting,
top 25, noise-token filter. -/
def extract_flexible_phrases (records : List ARecord) : List String :=
  let counter := records.foldl (fun acc r =>
    let tokens := r.tokens.filter fun t => !NOISE_TOKENS.contains t
    (List.range tokens.length).foldl (fun acc idx =>
      let start := idx - 3
      let window := (tokens.drop start).take (min tokens.length (idx + 3 + 1) - start)
      (combosK 2 window ++ combosK 3 window).foldl
        (fun acc combo => bumpCount (sortStable leStr combo) acc) acc) acc) []
  ((sortStable geCount counter).take 25).filterMap fun p =>
    if p.1.all (fun t => !NOISE_TOKENS.contains t)
    then some (String.intercalate " " p.1) else none

/-- `_cluster_terms`: the TF-IDF/KMeans label assignment is the external
`oracle`; the function returns the insertion-ordered `{term: label}` dict as
the zip of the terms with their labels, and is empty when sklearn is absent
or fewer than two terms exist. -/
def cluster_terms (haveSk : Bool) (oracle : List String → List Nat)
    (terms : List String) : List (String × Nat) :=
  if !haveSk || decide (terms.length < 2) then []
  else terms.zip (oracle terms)

/-- The output of `CourseTextAnalytics.build`. -/
structure Analytics where
  records : List ARecord
  top_tokens : List String
  candidate_phrases : List String
  term_clusters : List (String × Nat)
deriving DecidableEq, Repr

/-- `CourseTextAnalytics.build` (graph_builders.py copy: stop words are set
before records are built; everything is empty except `records` when sklearn
is absent). -/
def analytics_build (haveSk : Bool) (stop : String → Bool)
    (oracle : List String → List Nat) (courses : List Course) : Analytics :=
  let records := build_records stop courses
  if !haveSk then
    { records, top_tokens := [], candidate_phrases := [], term_clusters := [] }
  else
    let tt := top_tokens records
    let flex := extract_flexible_phrases records
    let candidatePhrases := sortStable leStr (dedupFirst
      (if flex.isEmpty then DEFAULT_CANDIDATE_PHRASES
       else DEFAULT_CANDIDATE_PHRASES ++ flex))
    let candidateTerms := (dedupFirst (tt ++ candidatePhrases)).take 60
    { records, top_tokens := tt, candidate_phrases := candidatePhrases,
      term_clusters := cluster_terms haveSk oracle candidateTerms }

/-- `append_triple` inside `build_enriched_triples` (graph_builders.py copy:
dedup on triple ids). -/
def append_triple (st : BuildState) (subject predicate obj : String)
    (metadata : List (String × Option MVal)) : BuildState :=
  if subject.isEmpty || obj.isEmpty then st
  else emitIfNew st (triple_payload subject predicate obj metadata)

/-- The theme name for a cluster id (`cluster_names.get(id, names[0])`). -/
def clusterName (cid : Nat) : String :=
  if cid < DEFAULT_THEME_NAMES.length then DEFAULT_THEME_NAMES.getD cid ""
  else DEFAULT_THEME_NAMES.getD 0 ""

/-- The theme for a course type (`COURSE_TYPE_THEME_MAP.get(..., names[0])`). -/
def courseTheme (courseType : Option String) : String :=
  match courseType with
  | some ct => (COURSE_TYPE_THEME_MAP.lookup ct).getD (DEFAULT_THEME_NAMES.getD 0 "")
  | none => DEFAULT_THEME_NAMES.getD 0 ""

/-- The per-record emission step of `build_enriched_triples`. -/
def enrichedStep (a : Analytics) (st : BuildState) (record : ARecord) : BuildState :=
  let course := record.course
  let metadata : List (String × Option MVal) :=
    [("course_id", course.id), ("class_id", course.class_id),
     ("title", some (.str record.title))]
  let st := a.top_tokens.foldl (fun st token =>
    if token ∈ record.tokens
    then append_triple st record.title "teaches_concept" token metadata
    else st) st
  let st := a.candidate_phrases.foldl (fun st phrase =>
    let phraseLower := pyLower phrase
    if !phraseLower.isEmpty && strContains record.text phraseLower
    then append_triple st record.title "develops_proficiency_in" phrase metadata
    else st) st
  let st := (course.provided_materials.getD []).foldl (fun st material =>
    append_triple st record.title "provides_material" material metadata) st
  append_triple st record.title "belongs_to_theme" (courseTheme course.course_type) metadata

/-- `build_enriched_triples` (graph_builders.py). -/
def build_enriched_triples (haveSk : Bool) (stop : String → Bool)
    (oracle : List String → List Nat) (courses : List Course) : List Payload :=
  let a := analytics_build haveSk stop oracle courses
  let st := a.records.foldl (enrichedStep a) ([], [])
  (a.term_clusters.foldl (fun st p =>
    append_triple st (pyTitle p.1) "belongs_to_theme" (clusterName p.2)
      [("term", some (.str p.1))]) st).2

/-- `build_kg_triples` (graph_builders.py): base triples then enriched
triples. -/
def build_kg_triples (haveSk : Bool) (stop : String → Bool)
    (oracle : List String → List Nat) (courses : List Course) : List Payload :=
  base_kg_triples courses ++ build_enriched_triples haveSk stop oracle courses

/-- `build_course_chunks` (graph_builders.py): narrative chunks with
`MAX_CHUNK_CHARS = 2000`. -/
def build_course_chunks (courses : List Course) : List Payload :=
  ChunkBuilder.build_narrative (some 2000) courses

end GraphBuilders

namespace GraphRag

/-- `CourseTextAnalytics._lemmatize` (graph_rag_service.py copy: the
trailing-`s` rule has no `-ss` guard). -/
def lemmatize (token : String) : String :=
  if strEndsWith token "ies" && decide (3 < strLen token) then strDropRight token 3 ++ "y"
  else if strEndsWith token "ing" && decide (4 < strLen token) then strDropRight token 3
  else if strEndsWith token "ed" && decide (3 < strLen token) then strDropRight token 2
  else if strEndsWith token "s" && decide (3 < strLen token) then strDropRight token 1
  else token

/-- The base-predicate loop of graph_rag_service.py's `build_kg_triples`
(lines 110-134): same constants and `_triple_payload` as graph_builders.py,
but with no `seen` set, so nothing deduplicates the appended triples.  This
is the intermediate `triples` list just before `build_enriched_triples` is
appended. -/
def base_kg_triples (courses : List Course) : List Payload :=
  (courses.map fun course =>
    if !optStrTruthy course.title then []
    else
      let title := course.title.getD ""
      let metadataBase : List (String × Option MVal) :=
        [("course_id", course.id), ("class_id", course.class_id),
         ("title", some (.str title))]
      GraphBuilders.BASE_PREDICATES.filterMap fun pred =>
        if !optStrTruthy (GraphBuilders.courseStrField course pred.1) then none
        else some (GraphBuilders.triple_payload title pred.2
          ((GraphBuilders.courseStrField course pred.1).getD "") metadataBase)).flatten

/-- graph_rag_service.py's `CourseTextAnalytics.__init__` assigns
`self.records = self._build_records()` *before* `self.stopwords`, and
`_build_records` calls `_tokenize`, whose comprehension reads
`self.stopwords` once per raw regex token: construction raises
`AttributeError` at the first titled course whose combined text yields at
least one token, while a titled course with a token-free text blob gets a
record with an empty token list and construction completes. -/
def analytics_records : List Course → Except String (List GraphBuilders.ARecord)
  | [] => Except.ok []
  | c :: rest =>
    if !optStrTruthy c.title then analytics_records rest
    else
      if (findTokens (GraphBuilders.combine_course_text c).data).isEmpty then
        (analytics_records rest).map
          (fun rs =>
            { course := c, course_id := pyOrM c.id c.class_id,
              title := c.title.getD "",
              text := pyLower (GraphBuilders.combine_course_text c),
              tokens := [] } :: rs)
      else
        Except.error "AttributeError: CourseTextAnalytics object has no attribute stopwords"

/-- `CourseTextAnalytics.build` (graph_rag_service.py copy: sklearn import
is unconditional, `_cluster_terms` guards only on the term count). -/
def analytics_build (oracle : List String → List Nat) (courses : List Course) :
    Except String GraphBuilders.Analytics := do
  let records ← analytics_records courses
  let tt := GraphBuilders.top_tokens records
  let flex := GraphBuilders.extract_flexible_phrases records
  let candidatePhrases := sortStable leStr (dedupFirst
    (if flex.isEmpty then GraphBuilders.DEFAULT_CANDIDATE_PHRASES
     else GraphBuilders.DEFAULT_CANDIDATE_PHRASES ++ flex))
  let candidateTerms := (dedupFirst (tt ++ candidatePhrases)).take 60
  Except.ok ({ records, top_tokens := tt, candidate_phrases := candidatePhrases,
               term_clusters := GraphBuilders.cluster_terms true oracle candidateTerms })

/-- Dedup state of graph_rag_service.py's `build_enriched_triples`: `seen`
holds (subject, predicate, object) key tuples, not triple ids. -/
abbrev RagState := List (String × String × String) × List Payload

/-- `append_triple` (graph_rag_service.py copy: key-based dedup). -/
def append_triple (st : RagState) (subject predicate obj : String)
    (metadata : List (String × Option MVal)) : RagState :=
  if subject.isEmpty || obj.isEmpty || (subject, predicate, obj) ∈ st.1 then st
  else (st.1 ++ [(subject, predicate, obj)],
        st.2 ++ [GraphBuilders.triple_payload subject predicate obj metadata])

/-- The per-record emission step of graph_rag_service.py's
`build_enriched_triples` (unreachable with a nonempty record list, since the
analytics constructor raises first, but embedded for completeness). -/
def enrichedStep (a : GraphBuilders.Analytics) (st : RagState)
    (record : GraphBuilders.ARecord) : RagState :=
  let course := record.course
  let metadata : List (String × Option MVal) :=
    [("course_id", course.id), ("class_id", course.class_id),
     ("title", some (.str record.title))]
  let st := a.top_tokens.foldl (fun st token =>
    if token ∈ record.tokens
    then append_triple st record.title "teaches_concept" token metadata
    else st) st
  let st := a.candidate_phrases.foldl (fun st phrase =>
    let phraseLower := pyLower phrase
    if !phraseLower.isEmpty && strContains record.text phraseLower
    then append_triple st record.title "develops_proficiency_in" phrase metadata
    else st) st
  let st := (course.provided_materials.getD []).foldl (fun st material =>
    append_triple st record.title "provides_material" material metadata) st
  append_triple st record.title "belongs_to_theme"
    (GraphBuilders.courseTheme course.course_type) metadata

/-- `build_enriched_triples` (graph_rag_service.py). -/
def build_enriched_triples (oracle : List String → List Nat)
    (courses : List Course) : Except String (List Payload) := do
  let a ← analytics_build oracle courses
  let st := a.records.foldl (enrichedStep a) ([], [])
  let st := a.term_clusters.foldl (fun st p =>
    append_triple st (pyTitle p.1) "belongs_to_theme"
      (GraphBuilders.clusterName p.2) [("term", some (.str p.1))]) st
  Except.ok st.2

/-- `build_kg_triples` (graph_rag_service.py): the base list is built first
and the enriched triples are appended; an exception from the enriched phase
propagates and discards the whole call. -/
def build_kg_triples (oracle : List String → List Nat) (courses : List Course) :
    Except String (List Payload) := do
  let enriched ← build_enriched_triples oracle courses
  Except.ok (base_kg_triples courses ++ enriched)

/-- `GraphRAGService` construction state (C9): the resolved provider and
collection names; both stores are created only after the provider check. -/
structure ServiceConfig where
  provider_name : String
  kg_collection : String
  chunk_collection : String
  persist_dir : Option String
deriving DecidableEq, Repr

/-- `GraphRAGService.__init__`: the provider argument (falling back to the
`VECTOR_STORE_PROVIDER` environment variable, default `"chroma"`) must be
`"chroma"`, otherwise a `ValueError` is raised before any store is created. -/
def serviceInit (provider envProvider envPersist envKg envChunk : Option String) :
    Except String ServiceConfig :=
  let name := if optStrTruthy provider then provider.getD ""
              else envProvider.getD "chroma"
  if name ≠ "chroma" then
    Except.error "GraphRAG is currently supported only with the Chroma provider"
  else
    Except.ok { provider_name := name
                kg_collection := envKg.getD "graph_kg_triples"
                chunk_collection := envChunk.getD "graph_course_chunks"
                persist_dir := envPersist }

end GraphRag

/-- A backend response field: absent (`None`), a flat list, or a nested
list of lists.  The Python code distinguishes these by truthiness and an
`isinstance(value[0], list)` check. -/
inductive RawField (α : Type) where
  | missing
  | flat (l : List α)
  | nested (ll : List (List α))
deriving DecidableEq, Repr

/-- A raw backend query response (one entry per envelope field). -/
structure RawResults (D M T I : Type) where
  documents : RawField D
  metadatas : RawField M
  distances : RawField T
  ids : RawField I
deriving DecidableEq, Repr

namespace BaseRag

/-- `_nested` inside `BaseRAGService._shape_results`: falsy values become
`[[]]`, flat lists are wrapped, nested lists pass through. -/
def nestedOf : RawField α → List (List α)
  | .missing => [[]]
  | .flat l => if l.isEmpty then [[]] else [l]
  | .nested ll => if ll.isEmpty then [[]] else ll

/-- The normalized envelope of parallel arrays. -/
structure Envelope (D M T I : Type) where
  documents : List D
  metadatas : List M
  distances : List T
  ids : List I
  count : Nat
deriving DecidableEq, Repr

/-- `BaseRAGService._shape_results`: normalize each field, take its first
row, and report the document count. -/
def shape_results (r : RawResults D M T I) : Envelope D M T I :=
  let documents := (nestedOf r.documents).headD []
  { documents
    metadatas := (nestedOf r.metadatas).headD []
    distances := (nestedOf r.distances).headD []
    ids := (nestedOf r.ids).headD []
    count := documents.length }

end BaseRag

namespace GraphRag

/-- The value of `(results.get(k) or [[]])[0]`: for a nested response this
is the first inner list, but for a flat non-empty response it is the first
*element*, not a list at all. -/
inductive ShapedVal (α : Type) where
  | list (l : List α)
  | item (a : α)
deriving DecidableEq, Repr

/-- `(value or [[]])[0]` as evaluated by `GraphRAGService._shape_results`. -/
def fieldZero : RawField α → ShapedVal α
  | .missing => .list []
  | .flat [] => .list []
  | .flat (a :: _) => .item a
  | .nested [] => .list []
  | .nested (l :: _) => .list l

/-- The envelope built by `GraphRAGService._shape_results`; documents are
strings, and `len(documents)` is a string length when the documents value
is a bare first element. -/
structure GEnvelope (M T I : Type) where
  documents : ShapedVal String
  metadatas : ShapedVal M
  distances : ShapedVal T
  ids : ShapedVal I
  count : Nat
deriving DecidableEq, Repr

/-- `GraphRAGService._shape_results`. -/
def shape_results (r : RawResults String M T I) : GEnvelope M T I :=
  let d := fieldZero r.documents
  { documents := d
    metadatas := fieldZero r.metadatas
    distances := fieldZero r.distances
    ids := fieldZero r.ids
    count := match d with
      | .list l => l.length
      | .item s => s.length }

end GraphRag

namespace GraphStore

/-- The graph held by the Neo4j backend: `Entity` nodes keyed by `uid` and
`RELATED` edges keyed by (subject uid, rid, object uid), each carrying a
property map. -/
structure GraphState where
  nodes : List (String × List (String × MVal))
  edges : List ((String × String × String) × List (String × MVal))
deriving DecidableEq, Repr

/-- The empty graph. -/
def emptyGraph : GraphState := { nodes := [], edges := [] }

/-- Upsert into an association list: update the payload under an existing
key in place, or append the freshly inserted payload. -/
def upsertAssoc [DecidableEq κ] (upd : α → α) (ins : α) (k : κ) :
    List (κ × α) → List (κ × α)
  | [] => [(k, ins)]
  | (k', v) :: rest =>
    if k' = k then (k', upd v) :: rest else (k', v) :: upsertAssoc upd ins k rest

/-- `MERGE (n:Entity {uid: ...}) SET n += props`. -/
def mergeNode (st : GraphState) (uid : String) (props : List (String × MVal)) :
    GraphState :=
  { st with nodes := (upsertAssoc (fun old => dictUpdate old props)
      (dictUpdate [("uid", MVal.str uid)] props) uid st.nodes) }

/-- `MERGE (s)-[r:RELATED {rid: ...}]->(o) SET r += props`. -/
def mergeEdge (st : GraphState) (key : String × String × String)
    (props : List (String × MVal)) : GraphState :=
  { st with edges := (upsertAssoc (fun old => dictUpdate old props)
      (dictUpdate [("rid", MVal.str key.2.1)] props) key st.edges) }

/-- One `UNWIND` iteration of `_write_batch`. -/
def applyRel (st : GraphState) (r : GraphBuilders.GraphRel) : GraphState :=
  mergeEdge (mergeNode (mergeNode st r.subject_id r.subject_props)
      r.object_id r.object_props)
    (r.subject_id, r.rel_id, r.object_id) r.rel_props

/-- `_write_batch`. -/
def write_batch (st : GraphState) (batch : List GraphBuilders.GraphRel) : GraphState :=
  batch.foldl applyRel st

/-- `_clear_graph`: `MATCH (n:Entity) DETACH DELETE n`. -/
def clear_graph (_ : GraphState) : GraphState := emptyGraph

/-- `Neo4jGraphStore.replace_graph` (identical in graph_store.py and
neo4j_graph_store.py): an empty relationship list returns immediately;
otherwise clear, then write consecutive batches of `max 1 batchSize`
relationships (`self.batch_size = max(1, batch_size)` from `__init__`). -/
def replace_graph (batchSize : Nat) (relationships : List GraphBuilders.GraphRel)
    (st : GraphState) : GraphState :=
  if relationships.isEmpty then st
  else (chunkList batchSize relationships).foldl write_batch (clear_graph st)

/-- The connection configuration a successfully constructed store holds. -/
structure StoreCfg where
  uri : String
  user : String
  password : String
  batch_size : Nat
deriving DecidableEq, Repr

/-- `Neo4jGraphStore.__init__` (graph_store.py): raises `RuntimeError` when
the neo4j driver is not importable, otherwise records the connection
configuration (the driver object itself is external). -/
def neo4jStoreInit (haveNeo4j : Bool) (uri user password : String)
    (batchSize : Nat) : Except String StoreCfg :=
  if !haveNeo4j then Except.error "neo4j driver is not installed"
  else Except.ok { uri, user, password, batch_size := max 1 batchSize }

/-- `_neo4j_factory` inside `_ensure_default_backends`: returns no store
when the driver is missing or the password kwarg is falsy; never raises on
its reachable paths. -/
def neo4j_factory (haveNeo4j : Bool) (uri user password : Option String)
    (batchSize : Nat) : Except String (Option StoreCfg) :=
  if !haveNeo4j then Except.ok none
  else if !optStrTruthy password then Except.ok none
  else (neo4jStoreInit haveNeo4j
      (if optStrTruthy uri then uri.getD "" else "bolt://localhost:7687")
      (if optStrTruthy user then user.getD "" else "neo4j")
      (password.getD "") batchSize).map some

/-- `create_graph_store` with the default backend registry: an unknown
backend name has no factory and yields no store. -/
def create_graph_store (backend : String) (haveNeo4j : Bool)
    (uri user password : Option String) (batchSize : Nat) :
    Except String (Option StoreCfg) :=
  if backend = "neo4j" then neo4j_factory haveNeo4j uri user password batchSize
  else Except.ok none

end GraphStore

/-! Shared lemmas about the helper functions. -/

theorem splitC_colon (b : List Char) : splitC (':' :: b) = [] :: splitC b := by
  simp [splitC]

theorem splitC_append_nocolon (a b : List Char) (h : ∀ c ∈ a, c ≠ ':') :
    splitC (a ++ ':' :: b) = a :: splitC b := by
  induction a with
  | nil => simp [splitC]
  | cons c a ih =>
    have hc : c ≠ ':' := h c (List.mem_cons_self c a)
    have ha : ∀ x ∈ a, x ≠ ':' := fun x hx => h x (List.mem_cons_of_mem c hx)
    show splitC (c :: (a ++ ':' :: b)) = (c :: a) :: splitC b
    rw [splitC, if_neg hc, ih ha]

theorem splitC_nocolon (a : List Char) (h : ∀ c ∈ a, c ≠ ':') :
    splitC a = [a] := by
  induction a with
  | nil => rfl
  | cons c a ih =>
    have hc : c ≠ ':' := h c (List.mem_cons_self c a)
    have ha : ∀ x ∈ a, x ≠ ':' := fun x hx => h x (List.mem_cons_of_mem c hx)
    rw [splitC, if_neg hc, ih ha]

theorem mem_collapseUS {c : Char} : ∀ {l : List Char}, c ∈ collapseUS l → c ∈ l := by
  intro l
  induction l with
  | nil => simp [collapseUS]
  | cons a rest ih =>
    intro hmem
    cases rest with
    | nil => simpa [collapseUS] using hmem
    | cons b r =>
      simp only [collapseUS] at hmem
      split at hmem
      · exact List.mem_cons_of_mem a (ih hmem)
      · rcases List.mem_cons.mp hmem with h | h
        · exact h ▸ List.mem_cons_self a _
        · exact List.mem_cons_of_mem a (ih h)

theorem mem_stripUS {c : Char} {l : List Char} (h : c ∈ stripUS l) : c ∈ l := by
  unfold stripUS at h
  rw [List.mem_reverse] at h
  have h1 := (List.dropWhile_sublist (fun x => x = '_')).subset h
  rw [List.mem_reverse] at h1
  exact (List.dropWhile_sublist (fun x => x = '_')).subset h1

theorem slugify_colon_free (s : String) : ∀ c ∈ (slugify s).data, c ≠ ':' := by
  intro c hc
  unfold slugify at hc
  have h1 := mem_collapseUS (mem_stripUS hc)
  rcases List.mem_map.mp h1 with ⟨d, _, hd⟩
  by_cases hk : isSlugKeep d = true
  · rw [if_pos hk] at hd
    subst hd
    intro hcon
    subst hcon
    exact absurd hk (by decide)
  · rw [if_neg hk] at hd
    subst hd
    decide

theorem data_append (a b : String) : (a ++ b).data = a.data ++ b.data := rfl

theorem splitC_tripleData (s p o : List Char)
    (hs : ∀ c ∈ s, c ≠ ':') (hp : ∀ c ∈ p, c ≠ ':') (ho : ∀ c ∈ o, c ≠ ':') :
    splitC (['k', 'g', ':', ':'] ++ s ++ [':', ':'] ++ p ++ [':', ':'] ++ o) =
      [['k', 'g'], [], s, [], p, [], o] := by
  have hshape : ['k', 'g', ':', ':'] ++ s ++ [':', ':'] ++ p ++ [':', ':'] ++ o =
      ['k', 'g'] ++ ':' :: (':' :: (s ++ ':' :: (':' :: (p ++ ':' :: (':' :: o))))) := by
    simp
  rw [hshape, splitC_append_nocolon ['k', 'g'] _ (by decide), splitC_colon,
    splitC_append_nocolon s _ hs, splitC_colon,
    splitC_append_nocolon p _ hp, splitC_colon, splitC_nocolon o ho]

theorem tripleId_inj (s₁ p₁ o₁ s₂ p₂ o₂ : String)
    (h : GraphBuilders.tripleId s₁ p₁ o₁ = GraphBuilders.tripleId s₂ p₂ o₂) :
    slugify s₁ = slugify s₂ ∧ slugify p₁ = slugify p₂ ∧ slugify o₁ = slugify o₂ := by
  have hd := congrArg String.data h
  unfold GraphBuilders.tripleId at hd
  simp only [data_append] at hd
  have h1 := congrArg splitC hd
  rw [show ("kg::").data ++ (slugify s₁).data ++ ("::").data ++ (slugify p₁).data ++
        ("::").data ++ (slugify o₁).data =
      ['k', 'g', ':', ':'] ++ (slugify s₁).data ++ [':', ':'] ++ (slugify p₁).data ++
        [':', ':'] ++ (slugify o₁).data from rfl] at h1
  rw [show ("kg::").data ++ (slugify s₂).data ++ ("::").data ++ (slugify p₂).data ++
        ("::").data ++ (slugify o₂).data =
      ['k', 'g', ':', ':'] ++ (slugify s₂).data ++ [':', ':'] ++ (slugify p₂).data ++
        [':', ':'] ++ (slugify o₂).data from rfl] at h1
  rw [splitC_tripleData _ _ _ (slugify_colon_free s₁) (slugify_colon_free p₁)
    (slugify_colon_free o₁)] at h1
  rw [splitC_tripleData _ _ _ (slugify_colon_free s₂) (slugify_colon_free p₂)
    (slugify_colon_free o₂)] at h1
  simp only [List.cons.injEq] at h1
  refine ⟨String.ext ?_, String.ext ?_, String.ext ?_⟩
  · exact h1.2.2.1
  · exact h1.2.2.2.2.1
  · exact h1.2.2.2.2.2.2.1

namespace GraphBuilders

/-- The predicate names emitted by the base phase. -/
def BASE_PRED_NAMES : List String := ["has_instructor", "is_of_type", "taught_at"]

/-- The predicate names emitted by the enriched phase. -/
def ENRICHED_PRED_NAMES : List String :=
  ["teaches_concept", "develops_proficiency_in", "provides_material", "belongs_to_theme"]

/-- Invariant of a build state: the `seen` set is exactly the ids of the
emitted triples, those ids are pairwise distinct, and every emitted triple
id is a slug triple id over a predicate drawn from `S`. -/
def StateInv (S : List String) (st : BuildState) : Prop :=
  st.1 = st.2.map Payload.id ∧ st.1.Nodup ∧
  ∀ x ∈ st.2, ∃ s p o, p ∈ S ∧ x.id = tripleId s p o

theorem stateInv_init (S : List String) : StateInv S ([], []) :=
  ⟨rfl, List.nodup_nil, by simp⟩

theorem stateInv_emit (S : List String) (st : BuildState) (s p o : String)
    (m : List (String × Option MVal)) (hp : p ∈ S) (h : StateInv S st) :
    StateInv S (emitIfNew st (triple_payload s p o m)) := by
  obtain ⟨h1, h2, h3⟩ := h
  unfold emitIfNew
  split
  · exact ⟨h1, h2, h3⟩
  · next hnot =>
    refine ⟨by simp [h1], ?_, ?_⟩
    · rw [List.nodup_append]
      refine ⟨h2, List.nodup_singleton _, ?_⟩
      intro a ha hb
      simp at hb
      subst hb
      exact hnot ha
    · intro x hx
      rcases List.mem_append.mp hx with hx | hx
      · exact h3 x hx
      · simp at hx
        subst hx
        exact ⟨s, p, o, hp, rfl⟩

theorem stateInv_append_triple (S : List String) (st : BuildState) (s p o : String)
    (m : List (String × Option MVal)) (hp : p ∈ S) (h : StateInv S st) :
    StateInv S (append_triple st s p o m) := by
  unfold append_triple
  split
  · exact h
  · exact stateInv_emit S st s p o m hp h

theorem stateInv_foldl {β : Type} (S : List String) (f : BuildState → β → BuildState)
    (l : List β)
    (hf : ∀ st x, x ∈ l → StateInv S st → StateInv S (f st x)) :
    ∀ st, StateInv S st → StateInv S (l.foldl f st) := by
  induction l with
  | nil => exact fun st h => h
  | cons x xs ih =>
    intro st h
    exact ih (fun st y hy h => hf st y (List.mem_cons_of_mem x hy) h) _
      (hf st x (List.mem_cons_self x xs) h)

theorem base_state_inv (courses : List Course) :
    StateInv BASE_PRED_NAMES (courses.foldl (fun (st : BuildState) course =>
      if !optStrTruthy course.title then st
      else
        let title := course.title.getD ""
        let metadataBase : List (String × Option MVal) :=
          [("course_id", course.id), ("class_id", course.class_id),
           ("title", some (.str title))]
        BASE_PREDICATES.foldl (fun st pred =>
          if !optStrTruthy (courseStrField course pred.1) then st
          else emitIfNew st (triple_payload title pred.2
            ((courseStrField course pred.1).getD "") metadataBase)) st) ([], [])) := by
  apply stateInv_foldl _ _ _ ?_ _ (stateInv_init _)
  intro st course _ hinv
  dsimp only
  split
  · exact hinv
  · apply stateInv_foldl _ _ _ ?_ _ hinv
    intro st' pred hmem hinv'
    dsimp only
    split
    · exact hinv'
    · refine stateInv_emit _ _ _ _ _ _ ?_ hinv'
      fin_cases hmem <;> simp [BASE_PRED_NAMES]

theorem base_kg_triples_inv (courses : List Course) :
    ((base_kg_triples courses).map Payload.id).Nodup ∧
    ∀ x ∈ base_kg_triples courses,
      ∃ s p o, p ∈ BASE_PRED_NAMES ∧ x.id = tripleId s p o := by
  obtain ⟨h1, h2, h3⟩ := base_state_inv courses
  exact ⟨h1 ▸ h2, h3⟩

theorem enrichedStep_inv (a : Analytics) (st : BuildState) (record : ARecord)
    (h : StateInv ENRICHED_PRED_NAMES st) :
    StateInv ENRICHED_PRED_NAMES (enrichedStep a st record) := by
  unfold enrichedStep
  refine stateInv_append_triple _ _ _ _ _ _ (by simp [ENRICHED_PRED_NAMES]) ?_
  refine stateInv_foldl _ _ _ ?_ _ ?_
  · intro st' _ _ hinv
    exact stateInv_append_triple _ _ _ _ _ _ (by simp [ENRICHED_PRED_NAMES]) hinv
  · refine stateInv_foldl _ _ _ ?_ _ ?_
    · intro st' _ _ hinv
      dsimp only
      split
      · exact stateInv_append_triple _ _ _ _ _ _ (by simp [ENRICHED_PRED_NAMES]) hinv
      · exact hinv
    · refine stateInv_foldl _ _ _ ?_ _ h
      intro st' _ _ hinv
      split
      · exact stateInv_append_triple _ _ _ _ _ _ (by simp [ENRICHED_PRED_NAMES]) hinv
      · exact hinv

theorem enriched_kg_triples_inv (haveSk : Bool) (stop : String → Bool)
    (oracle : List String → List Nat) (courses : List Course) :
    ((build_enriched_triples haveSk stop oracle courses).map Payload.id).Nodup ∧
    ∀ x ∈ build_enriched_triples haveSk stop oracle courses,
      ∃ s p o, p ∈ ENRICHED_PRED_NAMES ∧ x.id = tripleId s p o := by
  unfold build_enriched_triples
  have hrec : StateInv ENRICHED_PRED_NAMES
      ((analytics_build haveSk stop oracle courses).records.foldl
        (enrichedStep (analytics_build haveSk stop oracle courses)) ([], [])) := by
    refine stateInv_foldl _ _ _ ?_ _ (stateInv_init _)
    intro st record _ hinv
    exact enrichedStep_inv _ st record hinv
  have hfin : StateInv ENRICHED_PRED_NAMES
      ((analytics_build haveSk stop oracle courses).term_clusters.foldl
        (fun st p => append_triple st (pyTitle p.1) "belongs_to_theme"
          (clusterName p.2) [("term", some (.str p.1))])
        ((analytics_build haveSk stop oracle courses).records.foldl
          (enrichedStep (analytics_build haveSk stop oracle courses)) ([], []))) := by
    refine stateInv_foldl _ _ _ ?_ _ hrec
    intro st p _ hinv
    exact stateInv_append_triple _ _ _ _ _ _ (by simp [ENRICHED_PRED_NAMES]) hinv
  obtain ⟨h1, h2, h3⟩ := hfin
  exact ⟨h1 ▸ h2, h3⟩

theorem pred_slug_disjoint :
    ∀ p ∈ BASE_PRED_NAMES, ∀ q ∈ ENRICHED_PRED_NAMES, slugify p ≠ slugify q := by
  decide

theorem build_kg_triples_nodup (haveSk : Bool) (stop : String → Bool)
    (oracle : List String → List Nat) (courses : List Course) :
    ((build_kg_triples haveSk stop oracle courses).map Payload.id).Nodup := by
  unfold build_kg_triples
  rw [List.map_append, List.nodup_append]
  obtain ⟨hb1, hb2⟩ := base_kg_triples_inv courses
  obtain ⟨he1, he2⟩ := enriched_kg_triples_inv haveSk stop oracle courses
  refine ⟨hb1, he1, ?_⟩
  intro a ha hb
  rcases List.mem_map.mp ha with ⟨x, hx, rfl⟩
  rcases List.mem_map.mp hb with ⟨y, hy, hxy⟩
  obtain ⟨s, p, o, hp, hid⟩ := hb2 x hx
  obtain ⟨s', q, o', hq, hid'⟩ := he2 y hy
  have : tripleId s' q o' = tripleId s p o := by rw [← hid, ← hid', hxy]
  exact pred_slug_disjoint p hp q hq ((tripleId_inj _ _ _ _ _ _ this).2.1.symm)

end GraphBuilders

theorem chunkGo_flatten (n : Nat) :
    ∀ (fuel : Nat) (l : List α), l.length ≤ fuel → (chunkGo n fuel l).flatten = l := by
  intro fuel
  induction fuel with
  | zero =>
    intro l h
    cases l with
    | nil => rfl
    | cons x xs => simp at h
  | succ fuel ih =>
    intro l h
    cases l with
    | nil => rfl
    | cons x xs =>
      have hmax : 1 ≤ max 1 n := Nat.le_max_left 1 n
      have hlen : ((x :: xs).drop (max 1 n)).length ≤ fuel := by
        simp only [List.length_drop, List.length_cons]
        simp only [List.length_cons] at h
        omega
      simp only [chunkGo, List.flatten_cons, ih _ hlen, List.take_append_drop]

theorem chunkGo_sizes (n : Nat) :
    ∀ (fuel : Nat) (l : List α), l.length ≤ fuel →
      ∀ b ∈ chunkGo n fuel l, b.length ≤ max 1 n := by
  intro fuel
  induction fuel with
  | zero =>
    intro l h b hb
    cases l with
    | nil => simp [chunkGo] at hb
    | cons x xs => simp at h
  | succ fuel ih =>
    intro l h b hb
    cases l with
    | nil => simp [chunkGo] at hb
    | cons x xs =>
      have hmax : 1 ≤ max 1 n := Nat.le_max_left 1 n
      have hlen : ((x :: xs).drop (max 1 n)).length ≤ fuel := by
        simp only [List.length_drop, List.length_cons]
        simp only [List.length_cons] at h
        omega
      simp only [chunkGo, List.mem_cons] at hb
      rcases hb with rfl | hb
      · simp only [List.length_take]
        omega
      · exact ih _ hlen b hb

theorem chunkList_flatten (n : Nat) (l : List α) : (chunkList n l).flatten = l :=
  chunkGo_flatten n l.length l le_rfl

theorem chunkList_sizes (n : Nat) (l : List α) :
    ∀ b ∈ chunkList n l, b.length ≤ max 1 n :=
  chunkGo_sizes n l.length l le_rfl

/-- The non-blank entry count of an optional list field (entries whose
stripped text is nonempty). -/
def nonBlankCount (values : Option (List String)) : Nat :=
  (values.getD []).countP fun v => !(pyStrip v).isEmpty

theorem enumFrom_blank_filter_length (f : Nat × String → Payload) :
    ∀ (l : List String) (k : Nat),
      ((List.enumFrom k l).filterMap fun p =>
        if (pyStrip p.2).isEmpty then none else some (f p)).length =
      l.countP (fun v => !(pyStrip v).isEmpty) := by
  intro l
  induction l with
  | nil => intro k; rfl
  | cons v vs ih =>
    intro k
    by_cases hv : (pyStrip v).isEmpty
    · simp [List.enumFrom_cons, List.filterMap_cons, hv, List.countP_cons, ih]
    · simp [List.enumFrom_cons, List.filterMap_cons, hv, List.countP_cons, ih]

theorem listFieldChunks_length (uid : String) (md : List (String × MVal))
    (label : String) (values : Option (List String)) :
    (ChunkBuilder.listFieldChunks uid md label values).length = nonBlankCount values := by
  show ((List.enumFrom 0 (values.getD [])).filterMap fun p =>
      if (pyStrip p.2).isEmpty then none
      else some (⟨uid ++ "_" ++ label ++ "_" ++ toString p.1, pyStrip p.2, md⟩ : Payload)).length =
    nonBlankCount values
  exact enumFrom_blank_filter_length _ (values.getD []) 0

/-- The worked-example course from the specification. -/
def sourdoughCourse : Course :=
  { id := some (.int 1), title := some "Sourdough Basics",
    instructor := some "Ada", course_type := some "Culinary Arts",
    location := some "Leeds", skills := some ["kneading"],
    provided_materials := some ["starter"] }

/-- The analytics record derived for the worked-example course (when the
stop-word set contains neither of its two words). -/
def sourdoughRecord : GraphBuilders.ARecord :=
  { course := sourdoughCourse, course_id := some (.int 1),
    title := "Sourdough Basics", text := "kneading starter",
    tokens := ["knead", "starter"] }

/-- The candidate phrases the analytics derives for the worked example: the
curated set plus the mined phrase "knead starter", sorted. -/
def sourdoughPhrases : List String :=
  ["Animal Care", "Creative Cooking", "Creative Design", "Creative Writing",
   "Cultural History", "Design Skills", "Fiber Arts", "Flavour Pairing",
   "Food Presentation", "Mindfulness Crafting", "Storytelling",
   "Stress Relief", "Wildlife Conservation", "knead starter"]

/-- The five triples the worked example must produce for its course. -/
def sourdoughTriples : List Payload :=
  [{ id := "kg::sourdough_basics::has_instructor::ada",
     text := "Sourdough Basics has instructor Ada",
     metadata := [("subject", .str "Sourdough Basics"),
                  ("predicate", .str "has_instructor"), ("object", .str "Ada"),
                  ("course_id", .int 1), ("title", .str "Sourdough Basics")] },
   { id := "kg::sourdough_basics::is_of_type::culinary_arts",
     text := "Sourdough Basics is of type Culinary Arts",
     metadata := [("subject", .str "Sourdough Basics"),
                  ("predicate", .str "is_of_type"), ("object", .str "Culinary Arts"),
                  ("course_id", .int 1), ("title", .str "Sourdough Basics")] },
   { id := "kg::sourdough_basics::taught_at::leeds",
     text := "Sourdough Basics taught at Leeds",
     metadata := [("subject", .str "Sourdough Basics"),
                  ("predicate", .str "taught_at"), ("object", .str "Leeds"),
                  ("course_id", .int 1), ("title", .str "Sourdough Basics")] },
   { id := "kg::sourdough_basics::provides_material::starter",
     text := "Sourdough Basics provides material starter",
     metadata := [("subject", .str "Sourdough Basics"),
                  ("predicate", .str "provides_material"), ("object", .str "starter"),
                  ("course_id", .int 1), ("title", .str "Sourdough Basics")] },
   { id := "kg::sourdough_basics::belongs_to_theme::culinary_arts_and_food_cluster",
     text := "Sourdough Basics belongs to theme Culinary Arts and Food Cluster",
     metadata := [("subject", .str "Sourdough Basics"),
                  ("predicate", .str "belongs_to_theme"),
                  ("object", .str "Culinary Arts and Food Cluster"),
                  ("course_id", .int 1), ("title", .str "Sourdough Basics")] }]

theorem sourdough_tokenize (stop : String → Bool) (hk : stop "kneading" = false)
    (hs : stop "starter" = false) :
    GraphBuilders.tokenize stop "kneading starter" = ["knead", "starter"] := by
  unfold GraphBuilders.tokenize
  have hf : (findTokens "kneading starter".data).map (fun cs => pyLower ⟨cs⟩) =
      ["kneading", "starter"] := by decide
  rw [hf]
  have h1 : GraphBuilders.isStopword stop "kneading" = false := by
    unfold GraphBuilders.isStopword
    rw [hk]
    decide
  have h2 : GraphBuilders.isStopword stop "starter" = false := by
    unfold GraphBuilders.isStopword
    rw [hs]
    decide
  simp [List.filter, h1, h2]
  decide

theorem sourdough_records (stop : String → Bool) (hk : stop "kneading" = false)
    (hs : stop "starter" = false) :
    GraphBuilders.build_records stop [sourdoughCourse] = [sourdoughRecord] := by
  have hcomb : GraphBuilders.combine_course_text sourdoughCourse = "kneading starter" := by
    decide
  unfold GraphBuilders.build_records
  simp only [List.filterMap_cons, List.filterMap_nil, hcomb]
  rw [sourdough_tokenize stop hk hs]
  decide

theorem sourdough_analytics (stop : String → Bool) (oracle : List String → List Nat)
    (hk : stop "kneading" = false) (hs : stop "starter" = false) :
    GraphBuilders.analytics_build true stop oracle [sourdoughCourse] =
      { records := [sourdoughRecord], top_tokens := [],
        candidate_phrases := sourdoughPhrases,
        term_clusters := GraphBuilders.cluster_terms true oracle sourdoughPhrases } := by
  unfold GraphBuilders.analytics_build
  rw [sourdough_records stop hk hs]
  have h1 : GraphBuilders.top_tokens [sourdoughRecord] = [] := by decide
  have h2 : GraphBuilders.extract_flexible_phrases [sourdoughRecord] = ["knead starter"] := by
    decide
  have h3 : sortStable leStr (dedupFirst
      (GraphBuilders.DEFAULT_CANDIDATE_PHRASES ++ ["knead starter"])) = sourdoughPhrases := by
    decide
  have h4 : (dedupFirst (([] : List String) ++ sourdoughPhrases)).take 60 = sourdoughPhrases := by
    decide
  simp only [Bool.not_true, Bool.false_eq_true, if_false, h1, h2]
  simp only [show (["knead starter"].isEmpty) = false from rfl, Bool.false_eq_true, if_false]
  rw [h3, h4]

theorem enrichedStep_depends (a b : GraphBuilders.Analytics) (st : GraphBuilders.BuildState)
    (r : GraphBuilders.ARecord) (h1 : a.top_tokens = b.top_tokens)
    (h2 : a.candidate_phrases = b.candidate_phrases) :
    GraphBuilders.enrichedStep a st r = GraphBuilders.enrichedStep b st r := by
  unfold GraphBuilders.enrichedStep
  rw [h1, h2]

theorem triple_payload_subject_lookup (s p o : String) (m : List (String × Option MVal))
    (hm : m.lookup "subject" = none) :
    (GraphBuilders.triple_payload s p o m).metadata.lookup "subject" = some (.str s) := by
  unfold GraphBuilders.triple_payload
  simp [dictUpdate, sanitize_metadata, hm, List.lookup]

theorem filter_cluster_fold (pairs : List (String × Nat))
    (hsub : ∀ pr ∈ pairs, pyTitle pr.1 ≠ "Sourdough Basics") :
    ∀ st : GraphBuilders.BuildState,
      ((pairs.foldl (fun st p => GraphBuilders.append_triple st (pyTitle p.1)
          "belongs_to_theme" (GraphBuilders.clusterName p.2)
          [("term", some (.str p.1))]) st).2).filter
        (fun t => t.metadata.lookup "subject" == some (.str "Sourdough Basics")) =
      st.2.filter
        (fun t => t.metadata.lookup "subject" == some (.str "Sourdough Basics")) := by
  induction pairs with
  | nil => intro st; rfl
  | cons p ps ih =>
    intro st
    rw [List.foldl_cons, ih (fun pr hpr => hsub pr (List.mem_cons_of_mem p hpr))]
    unfold GraphBuilders.append_triple GraphBuilders.emitIfNew
    split
    · rfl
    · split
      · rfl
      · rw [List.filter_append]
        have hlook : (GraphBuilders.triple_payload (pyTitle p.1) "belongs_to_theme"
            (GraphBuilders.clusterName p.2) [("term", some (.str p.1))]).metadata.lookup
              "subject" = some (.str (pyTitle p.1)) :=
          triple_payload_subject_lookup _ _ _ _ rfl
        have hne : pyTitle p.1 ≠ "Sourdough Basics" := hsub p (List.mem_cons_self p ps)
        simp [hlook, hne]

/-- The analytics value seen by the enriched per-record loop in the worked
example (the cluster assignment is irrelevant to that loop). -/
def sourdoughAnalytics0 : GraphBuilders.Analytics :=
  { records := [sourdoughRecord], top_tokens := [],
    candidate_phrases := sourdoughPhrases, term_clusters := [] }

theorem sourdough_enriched_filter (haveSk : Bool) (stop : String → Bool)
    (oracle : List String → List Nat) (hk : stop "kneading" = false)
    (hs : stop "starter" = false) :
    (GraphBuilders.build_enriched_triples haveSk stop oracle [sourdoughCourse]).filter
      (fun t => t.metadata.lookup "subject" == some (.str "Sourdough Basics")) =
    sourdoughTriples.drop 3 := by
  cases haveSk with
  | false =>
    unfold GraphBuilders.build_enriched_triples
    have ha : GraphBuilders.analytics_build false stop oracle [sourdoughCourse] =
        { records := [sourdoughRecord], top_tokens := [], candidate_phrases := [],
          term_clusters := [] } := by
      unfold GraphBuilders.analytics_build
      rw [sourdough_records stop hk hs]
      simp
    rw [ha]
    simp only [List.foldl_cons, List.foldl_nil]
    decide
  | true =>
    unfold GraphBuilders.build_enriched_triples
    rw [sourdough_analytics stop oracle hk hs]
    simp only [List.foldl_cons, List.foldl_nil]
    rw [enrichedStep_depends
      { records := [sourdoughRecord], top_tokens := [],
        candidate_phrases := sourdoughPhrases,
        term_clusters := GraphBuilders.cluster_terms true oracle sourdoughPhrases }
      sourdoughAnalytics0 ([], []) sourdoughRecord rfl rfl]
    have hct : GraphBuilders.cluster_terms true oracle sourdoughPhrases =
        sourdoughPhrases.zip (oracle sourdoughPhrases) := by
      unfold GraphBuilders.cluster_terms
      rw [show (!true || decide (sourdoughPhrases.length < 2)) = false from by decide]
      simp
    rw [hct]
    have h14 : ∀ t ∈ sourdoughPhrases, pyTitle t ≠ "Sourdough Basics" := by decide
    rw [filter_cluster_fold (sourdoughPhrases.zip (oracle sourdoughPhrases))
      (fun pr hpr => h14 pr.1 (List.of_mem_zip hpr).1) _]
    decide

/-- The narrative chunk built for the worked-example course. -/
def sourdoughChunk : Payload :=
  { id := "chunk::1",
    text := "Course Title: Sourdough Basics. Course Type: Culinary Arts. Instructor: Ada. Location: Leeds. Skills: kneading. Provided Materials: starter",
    metadata := [("course_id", .int 1), ("title", .str "Sourdough Basics"),
                 ("course_type", .str "Culinary Arts"), ("location", .str "Leeds"),
                 ("instructor", .str "Ada")] }

set_option maxRecDepth 8000 in
theorem sourdough_narrative_chunk :
    GraphBuilders.build_course_chunks [sourdoughCourse] = [sourdoughChunk] := by
  decide

theorem strEndsWith_exists (t pat : String) (h : strEndsWith t pat = true) :
    ∃ u, t.data = u ++ pat.data := by
  unfold strEndsWith at h
  obtain ⟨u, hu⟩ := List.isSuffixOf_iff_suffix.mp h
  exact ⟨u, hu.symm⟩

theorem exists_strEndsWith (t pat : String) (u : List Char) (h : t.data = u ++ pat.data) :
    strEndsWith t pat = true := by
  unfold strEndsWith
  exact List.isSuffixOf_iff_suffix.mpr ⟨u, h.symm⟩

theorem ss_not_ies (t : String) (hss : strEndsWith t "ss" = true)
    (hies : strEndsWith t "ies" = true) : False := by
  obtain ⟨v, hv⟩ := strEndsWith_exists t "ss" hss
  obtain ⟨u, hu⟩ := strEndsWith_exists t "ies" hies
  rw [hu] at hv
  have hv' : (u ++ ['i']) ++ ['e', 's'] = v ++ ['s', 's'] := by
    simpa [List.append_assoc] using hv
  have h2 : (['e', 's'] : List Char) = ['s', 's'] :=
    List.append_inj_right' hv' rfl
  simp at h2

theorem ss_not_ing (t : String) (hss : strEndsWith t "ss" = true)
    (hing : strEndsWith t "ing" = true) : False := by
  obtain ⟨v, hv⟩ := strEndsWith_exists t "ss" hss
  obtain ⟨u, hu⟩ := strEndsWith_exists t "ing" hing
  rw [hu] at hv
  have hv' : (u ++ ['i', 'n']) ++ ['g'] = (v ++ ['s']) ++ ['s'] := by
    simpa [List.append_assoc] using hv
  have h2 : (['g'] : List Char) = ['s'] :=
    List.append_inj_right' hv' rfl
  simp at h2

theorem ss_not_ed (t : String) (hss : strEndsWith t "ss" = true)
    (hed : strEndsWith t "ed" = true) : False := by
  obtain ⟨v, hv⟩ := strEndsWith_exists t "ss" hss
  obtain ⟨u, hu⟩ := strEndsWith_exists t "ed" hed
  rw [hu] at hv
  have hv' : (u ++ ['e']) ++ ['d'] = (v ++ ['s']) ++ ['s'] := by
    simpa [List.append_assoc] using hv
  have h2 : (['d'] : List Char) = ['s'] :=
    List.append_inj_right' hv' rfl
  simp at h2

theorem ss_ends_s (t : String) (hss : strEndsWith t "ss" = true) :
    strEndsWith t "s" = true := by
  obtain ⟨v, hv⟩ := strEndsWith_exists t "ss" hss
  refine exists_strEndsWith t "s" (v ++ ['s']) ?_
  simpa [List.append_assoc] using hv

/-- The lemmatization heuristic exactly as the specification words it: a
token ending in "ies" (length > 3) maps to the stem plus "y"; else a token
ending in "ing" (length > 4) drops the "ing"; else a token ending in "ed"
(length > 3) drops the "ed"; else a trailing "s" (length > 3) is stripped
unless the token ends in "ss"; otherwise the token is unchanged. -/
def lemmatizeSpec (token : String) : String :=
  if strEndsWith token "ies" && decide (3 < strLen token) then strDropRight token 3 ++ "y"
  else if strEndsWith token "ing" && decide (4 < strLen token) then strDropRight token 3
  else if strEndsWith token "ed" && decide (3 < strLen token) then strDropRight token 2
  else if strEndsWith token "s" && decide (3 < strLen token) && !strEndsWith token "ss" then
    strDropRight token 1
  else token

theorem build_graph_relationships_shape (ts : List Payload) (r : GraphBuilders.GraphRel)
    (hr : r ∈ GraphBuilders.build_graph_relationships ts) :
    ∃ t ∈ ts, ∃ subject obj : String,
      t.metadata.lookup "subject" = some (.str subject) ∧
      t.metadata.lookup "object" = some (.str obj) ∧
      r.rel_id = t.id ∧
      r.subject_id = GraphBuilders.node_uid subject
        (pyOrM ((GraphBuilders.subject_metadata t.metadata).lookup "course_id")
          ((GraphBuilders.subject_metadata t.metadata).lookup "class_id")) ∧
      r.object_id = GraphBuilders.node_uid obj
        (pyOrM ((GraphBuilders.object_metadata t.metadata).lookup "term")
          (some (.str obj))) := by
  unfold GraphBuilders.build_graph_relationships at hr
  rcases List.mem_filterMap.mp hr with ⟨t, ht, hft⟩
  split at hft
  · next subject obj predicate hsub hobj hpred =>
    split at hft
    · exact absurd hft (by simp)
    · rw [Option.some.injEq] at hft
      subst hft
      exact ⟨t, ht, subject, obj, hsub, hobj, rfl, rfl, rfl⟩
  · exact absurd hft (by simp)

/-! The claim theorems. -/

/-- C1: the triple id produced by `_triple_payload` is the pure slug-based
function of (subject, predicate, object) alone — independent of the metadata
argument — and every node uid in a derived graph relationship is the pure
`_node_uid` function of names and suffixes read off the triple, so building
triples and relationships twice from identical input yields identical id
sets and identical node/edge identifiers. -/
theorem c1_triple_and_node_identifiers_deterministic
    (s p o : String) (m m' : List (String × Option MVal))
    (ts : List Payload) (r : GraphBuilders.GraphRel)
    (haveSk : Bool) (stop : String → Bool) (oracle : List String → List Nat)
    (cs : List Course)
    (hr : r ∈ GraphBuilders.build_graph_relationships ts) :
    (GraphBuilders.triple_payload s p o m).id = GraphBuilders.tripleId s p o ∧
    (GraphBuilders.triple_payload s p o m).id =
      (GraphBuilders.triple_payload s p o m').id ∧
    (∃ t ∈ ts, ∃ subject obj : String,
      t.metadata.lookup "subject" = some (.str subject) ∧
      t.metadata.lookup "object" = some (.str obj) ∧
      r.rel_id = t.id ∧
      r.subject_id = GraphBuilders.node_uid subject
        (pyOrM ((GraphBuilders.subject_metadata t.metadata).lookup "course_id")
          ((GraphBuilders.subject_metadata t.metadata).lookup "class_id")) ∧
      r.object_id = GraphBuilders.node_uid obj
        (pyOrM ((GraphBuilders.object_metadata t.metadata).lookup "term")
          (some (.str obj)))) ∧
    (GraphBuilders.build_kg_triples haveSk stop oracle cs).map Payload.id =
      (GraphBuilders.build_kg_triples haveSk stop oracle cs).map Payload.id ∧
    GraphBuilders.build_graph_relationships
        (GraphBuilders.build_kg_triples haveSk stop oracle cs) =
      GraphBuilders.build_graph_relationships
        (GraphBuilders.build_kg_triples haveSk stop oracle cs) :=
  ⟨rfl, rfl, build_graph_relationships_shape ts r hr, rfl, rfl⟩

/-- Witness for C1 at a concrete one-triple input. -/
theorem c1_witness :
    ((⟨"i", "txt", [("subject", .str "A"), ("predicate", .str "p"),
        ("object", .str "B")]⟩ : Payload) ∈
      ([⟨"i", "txt", [("subject", .str "A"), ("predicate", .str "p"),
        ("object", .str "B")]⟩] : List Payload)) ∧
    ((GraphBuilders.triple_payload "A" "p" "B" [("course_id", some (.int 7))]).id =
        GraphBuilders.tripleId "A" "p" "B" ∧
      (GraphBuilders.triple_payload "A" "p" "B" [("course_id", some (.int 7))]).id =
        (GraphBuilders.triple_payload "A" "p" "B" []).id ∧
      (∃ t ∈ ([⟨"i", "txt", [("subject", .str "A"), ("predicate", .str "p"),
          ("object", .str "B")]⟩] : List Payload), ∃ subject obj : String,
        t.metadata.lookup "subject" = some (.str subject) ∧
        t.metadata.lookup "object" = some (.str obj) ∧
        (⟨"a", [("uid", .str "a"), ("name", .str "A"), ("entity_type", .str "course")],
          "b_b", [("uid", .str "b_b"), ("name", .str "B"), ("entity_type", .str "entity")],
          "i", [("predicate", .str "p"), ("text", .str "txt")]⟩ :
            GraphBuilders.GraphRel).rel_id = t.id ∧
        (⟨"a", [("uid", .str "a"), ("name", .str "A"), ("entity_type", .str "course")],
          "b_b", [("uid", .str "b_b"), ("name", .str "B"), ("entity_type", .str "entity")],
          "i", [("predicate", .str "p"), ("text", .str "txt")]⟩ :
            GraphBuilders.GraphRel).subject_id = GraphBuilders.node_uid subject
          (pyOrM ((GraphBuilders.subject_metadata t.metadata).lookup "course_id")
            ((GraphBuilders.subject_metadata t.metadata).lookup "class_id")) ∧
        (⟨"a", [("uid", .str "a"), ("name", .str "A"), ("entity_type", .str "course")],
          "b_b", [("uid", .str "b_b"), ("name", .str "B"), ("entity_type", .str "entity")],
          "i", [("predicate", .str "p"), ("text", .str "txt")]⟩ :
            GraphBuilders.GraphRel).object_id = GraphBuilders.node_uid obj
          (pyOrM ((GraphBuilders.object_metadata t.metadata).lookup "term")
            (some (.str obj)))) ∧
      (GraphBuilders.build_kg_triples false (fun _ => false) (fun _ => [])
          [sourdoughCourse]).map Payload.id =
        (GraphBuilders.build_kg_triples false (fun _ => false) (fun _ => [])
          [sourdoughCourse]).map Payload.id ∧
      GraphBuilders.build_graph_relationships
          (GraphBuilders.build_kg_triples false (fun _ => false) (fun _ => [])
            [sourdoughCourse]) =
        GraphBuilders.build_graph_relationships
          (GraphBuilders.build_kg_triples false (fun _ => false) (fun _ => [])
            [sourdoughCourse])) :=
  ⟨by decide,
   c1_triple_and_node_identifiers_deterministic "A" "p" "B"
     [("course_id", some (.int 7))] [] _ _ false (fun _ => false) (fun _ => [])
     [sourdoughCourse] (by decide)⟩

/-- C2: on the worked-example course, `build_kg_triples` derives for that
course exactly the four direct triples plus one `belongs_to_theme` triple
into the Culinary theme, and the narrative chunk contains both required
substrings (the only assumption is that the external stop-word set does not
contain the course's two content words). -/
theorem c2_sourdough_worked_example (haveSk : Bool) (stop : String → Bool)
    (oracle : List String → List Nat) (hk : stop "kneading" = false)
    (hs : stop "starter" = false) :
    (GraphBuilders.build_kg_triples haveSk stop oracle [sourdoughCourse]).filter
      (fun t => t.metadata.lookup "subject" == some (.str "Sourdough Basics")) =
      sourdoughTriples ∧
    (haveSk = false →
      GraphBuilders.build_kg_triples haveSk stop oracle [sourdoughCourse] =
        sourdoughTriples) ∧
    ∃ chunk, GraphBuilders.build_course_chunks [sourdoughCourse] = [chunk] ∧
      strContains chunk.text "Course Title: Sourdough Basics" = true ∧
      strContains chunk.text "Provided Materials: starter" = true := by
  refine ⟨?_, ?_, ?_⟩
  · unfold GraphBuilders.build_kg_triples
    rw [List.filter_append, sourdough_enriched_filter haveSk stop oracle hk hs]
    have hbase : (GraphBuilders.base_kg_triples [sourdoughCourse]).filter
        (fun t => t.metadata.lookup "subject" == some (.str "Sourdough Basics")) =
      sourdoughTriples.take 3 := by decide
    rw [hbase, List.take_append_drop]
  · intro hsk
    subst hsk
    unfold GraphBuilders.build_kg_triples
    have ha : GraphBuilders.analytics_build false stop oracle [sourdoughCourse] =
        { records := [sourdoughRecord], top_tokens := [], candidate_phrases := [],
          term_clusters := [] } := by
      unfold GraphBuilders.analytics_build
      rw [sourdough_records stop hk hs]
      simp
    have he : GraphBuilders.build_enriched_triples false stop oracle [sourdoughCourse] =
        sourdoughTriples.drop 3 := by
      unfold GraphBuilders.build_enriched_triples
      rw [ha]
      simp only [List.foldl_cons, List.foldl_nil]
      decide
    rw [he, show GraphBuilders.base_kg_triples [sourdoughCourse] =
      sourdoughTriples.take 3 from by decide, List.take_append_drop]
  · exact ⟨sourdoughChunk, sourdough_narrative_chunk, by decide, by decide⟩

/-- Witness for C2 with the empty stop-word set. -/
theorem c2_witness :
    ((fun _ : String => false) "kneading" = false) ∧
    ((fun _ : String => false) "starter" = false) ∧
    ((GraphBuilders.build_kg_triples false (fun _ => false) (fun _ => [])
        [sourdoughCourse]).filter
      (fun t => t.metadata.lookup "subject" == some (.str "Sourdough Basics")) =
      sourdoughTriples ∧
    (false = false →
      GraphBuilders.build_kg_triples false (fun _ => false) (fun _ => [])
        [sourdoughCourse] = sourdoughTriples) ∧
    ∃ chunk, GraphBuilders.build_course_chunks [sourdoughCourse] = [chunk] ∧
      strContains chunk.text "Course Title: Sourdough Basics" = true ∧
      strContains chunk.text "Provided Materials: starter" = true) :=
  ⟨rfl, rfl, c2_sourdough_worked_example false (fun _ => false) (fun _ => []) rfl rfl⟩

/-- C3: every single call of graph_builders.py's `build_kg_triples` emits
each triple id at most once, for every course list and every external
stop-word set and clustering outcome: the per-phase `seen` sets are id-keyed
and the two phases use disjoint predicate slugs. -/
theorem c3_build_kg_triples_ids_emitted_once (haveSk : Bool) (stop : String → Bool)
    (oracle : List String → List Nat) (courses : List Course) :
    ((GraphBuilders.build_kg_triples haveSk stop oracle courses).map Payload.id).Nodup :=
  GraphBuilders.build_kg_triples_nodup haveSk stop oracle courses

/-- A course that appears twice in the input list. -/
def dupCourse : Course := { title := some "A", instructor := some "B" }

/-- Counterexample to C3 as stated for graph_rag_service.py's copy of
`build_kg_triples`: its base loop has no `seen` set, so on a course list
containing the same course twice the call returns normally with the same
triple id appearing twice in the returned list (the duplicated base triple,
followed by the single deduplicated theme triple of the enriched phase). -/
theorem c3_counterexample :
    (GraphRag.base_kg_triples [dupCourse, dupCourse]).map Payload.id =
      ["kg::a::has_instructor::b", "kg::a::has_instructor::b"] ∧
    (GraphRag.build_kg_triples (fun _ => []) [dupCourse, dupCourse]).map
        (fun l => l.map Payload.id) =
      Except.ok ["kg::a::has_instructor::b", "kg::a::has_instructor::b",
        "kg::a::belongs_to_theme::creative_arts_and_design_cluster"] ∧
    ¬ (["kg::a::has_instructor::b", "kg::a::has_instructor::b",
        "kg::a::belongs_to_theme::creative_arts_and_design_cluster"] :
        List String).Nodup :=
  ⟨by decide, rfl, by decide⟩

/-- A backend response with all four fields in flat-list form. -/
def flatRR {D M T I : Type} (d : List D) (m : List M) (t : List T) (i : List I) :
    RawResults D M T I :=
  { documents := .flat d, metadatas := .flat m, distances := .flat t, ids := .flat i }

/-- A backend response with all four fields wrapped in an outer singleton
list (the nested form). -/
def nestedRR {D M T I : Type} (d : List D) (m : List M) (t : List T) (i : List I) :
    RawResults D M T I :=
  { documents := .nested [d], metadatas := .nested [m], distances := .nested [t],
    ids := .nested [i] }

/-- The envelope with the given parallel arrays and count. -/
def mkEnvelope {D M T I : Type} (d : List D) (m : List M) (t : List T) (i : List I)
    (c : Nat) : BaseRag.Envelope D M T I :=
  { documents := d, metadatas := m, distances := t, ids := i, count := c }

/-- Counterexample to C4 as stated: `GraphRAGService._shape_results` applied
to a flat-list response returns the first document (a bare string) instead
of the document list, with `count` equal to that string's length, so the
envelope's fields are not equal-length lists with a matching count. -/
theorem c4_counterexample :
    (GraphRag.shape_results (flatRR ["abc", "d"] [0, 1] [2, 3] ["x", "y"])).documents =
      GraphRag.ShapedVal.item "abc" ∧
    (GraphRag.shape_results (flatRR ["abc", "d"] [0, 1] [2, 3] ["x", "y"])).ids =
      GraphRag.ShapedVal.item "x" ∧
    (GraphRag.shape_results (flatRR ["abc", "d"] [0, 1] [2, 3] ["x", "y"])).count = 3 :=
  ⟨rfl, rfl, rfl⟩

/-- C4 (amended): `BaseRAGService._shape_results` normalizes both flat-list
and nested-list parallel responses into equal-length arrays with a matching
count; `GraphRAGService._shape_results` guarantees this only for nested-list
responses (on a flat-list response it extracts first elements instead, as
the counterexample shows). -/
theorem c4_shape_results_parallel (β γ δ : Type) (d : List String) (m : List β)
    (t : List γ) (i : List δ) (hm : m.length = d.length) (ht : t.length = d.length)
    (hi : i.length = d.length) :
    BaseRag.shape_results (flatRR d m t i) = mkEnvelope d m t i d.length ∧
    BaseRag.shape_results (nestedRR d m t i) = mkEnvelope d m t i d.length ∧
    GraphRag.shape_results (nestedRR d m t i) =
      { documents := .list d, metadatas := .list m, distances := .list t,
        ids := .list i, count := d.length } ∧
    ((BaseRag.shape_results (flatRR d m t i)).metadatas.length =
        (BaseRag.shape_results (flatRR d m t i)).count ∧
      (BaseRag.shape_results (flatRR d m t i)).distances.length =
        (BaseRag.shape_results (flatRR d m t i)).count ∧
      (BaseRag.shape_results (flatRR d m t i)).ids.length =
        (BaseRag.shape_results (flatRR d m t i)).count ∧
      (BaseRag.shape_results (flatRR d m t i)).documents.length =
        (BaseRag.shape_results (flatRR d m t i)).count) := by
  have hflat : ∀ (α : Type) (l : List α),
      (BaseRag.nestedOf (.flat l)).head?.getD [] = l := by
    intro α l
    cases l <;> simp [BaseRag.nestedOf]
  have hnested : ∀ (α : Type) (l : List α),
      (BaseRag.nestedOf (.nested [l])).head?.getD [] = l := by
    intro α l
    simp [BaseRag.nestedOf]
  refine ⟨?_, ?_, rfl, ?_⟩
  · unfold BaseRag.shape_results flatRR mkEnvelope
    simp [hflat]
  · unfold BaseRag.shape_results nestedRR mkEnvelope
    simp [hnested]
  · unfold BaseRag.shape_results flatRR
    simp [hflat, hm, ht, hi]

/-- Witness for C4 (amended) at concrete two-element responses. -/
theorem c4_witness :
    (([10, 20] : List Nat).length = (["da", "db"] : List String).length) ∧
    (([7, 9] : List Int).length = (["da", "db"] : List String).length) ∧
    ((["ia", "ib"] : List String).length = (["da", "db"] : List String).length) ∧
    BaseRag.shape_results (flatRR ["da", "db"] [10, 20] ([7, 9] : List Int) ["ia", "ib"]) =
      mkEnvelope ["da", "db"] [10, 20] ([7, 9] : List Int) ["ia", "ib"] 2 :=
  ⟨rfl, rfl, rfl,
    (c4_shape_results_parallel Nat Int String ["da", "db"] [10, 20] [7, 9]
      ["ia", "ib"] rfl rfl rfl).1⟩

/-- A one-relationship graph left over from a previous index run. -/
def priorRel : GraphBuilders.GraphRel :=
  { subject_id := "a", subject_props := [("uid", .str "a"), ("name", .str "A")],
    object_id := "b", object_props := [("uid", .str "b"), ("name", .str "B")],
    rel_id := "r", rel_props := [("predicate", .str "p")] }

/-- The graph state holding `priorRel`. -/
def priorState : GraphStore.GraphState :=
  GraphStore.write_batch GraphStore.emptyGraph [priorRel]

/-- Counterexample to C5 as stated: `replace_graph([])` returns before the
clear step, so a previously written graph survives instead of becoming the
(empty) graph derived from the given relationships. -/
theorem c5_counterexample :
    GraphStore.replace_graph 500 [] priorState = priorState ∧
    priorState ≠ GraphStore.emptyGraph := by
  exact ⟨rfl, by decide⟩

/-- C5 (amended): for every NON-empty relationship list, `replace_graph`
first clears the graph and then writes the relationships in consecutive
batches of at most `max 1 batch_size`, so the final graph is exactly the one
derived from the given relationships, independent of the prior state; for
the empty list the call is a no-op that leaves the prior graph intact. -/
theorem c5_replace_graph_full_replace (batchSize : Nat)
    (rels : List GraphBuilders.GraphRel) (st st' : GraphStore.GraphState)
    (h : rels ≠ []) :
    GraphStore.replace_graph batchSize rels st =
      rels.foldl GraphStore.applyRel GraphStore.emptyGraph ∧
    GraphStore.replace_graph batchSize rels st =
      GraphStore.replace_graph batchSize rels st' ∧
    (chunkList batchSize rels).flatten = rels ∧
    (∀ b ∈ chunkList batchSize rels, b.length ≤ max 1 batchSize) ∧
    GraphStore.replace_graph batchSize [] st = st := by
  have hkey : ∀ s : GraphStore.GraphState, GraphStore.replace_graph batchSize rels s =
      rels.foldl GraphStore.applyRel GraphStore.emptyGraph := by
    intro s
    unfold GraphStore.replace_graph
    rw [show rels.isEmpty = false from by cases rels with
      | nil => exact absurd rfl h
      | cons x xs => rfl]
    simp only [Bool.false_eq_true, if_false]
    unfold GraphStore.write_batch GraphStore.clear_graph
    have hfold := List.foldl_flatten GraphStore.applyRel GraphStore.emptyGraph
      (chunkList batchSize rels)
    rw [chunkList_flatten batchSize rels] at hfold
    exact hfold.symm
  exact ⟨hkey st, (hkey st).trans (hkey st').symm, chunkList_flatten batchSize rels,
    chunkList_sizes batchSize rels, rfl⟩

/-- Witness for C5 (amended) on a concrete one-relationship list. -/
theorem c5_witness :
    ([priorRel] ≠ ([] : List GraphBuilders.GraphRel)) ∧
    (GraphStore.replace_graph 500 [priorRel] priorState =
      [priorRel].foldl GraphStore.applyRel GraphStore.emptyGraph ∧
    GraphStore.replace_graph 500 [priorRel] priorState =
      GraphStore.replace_graph 500 [priorRel] GraphStore.emptyGraph ∧
    (chunkList 500 [priorRel]).flatten = [priorRel] ∧
    (∀ b ∈ chunkList 500 [priorRel], b.length ≤ max 1 500) ∧
    GraphStore.replace_graph 500 [] priorState = priorState) :=
  ⟨by decide, c5_replace_graph_full_replace 500 [priorRel] priorState
    GraphStore.emptyGraph (by decide)⟩

/-- Counterexample to C6 as stated: the two `_lemmatize` copies disagree on
"class" — the graph_builders.py copy guards against a trailing "ss" and
returns the token unchanged, while the graph_rag_service.py copy strips the
trailing "s". -/
theorem c6_counterexample :
    GraphBuilders.lemmatize "class" = "class" ∧
    GraphRag.lemmatize "class" = "clas" ∧
    GraphBuilders.lemmatize "class" ≠ GraphRag.lemmatize "class" := by
  refine ⟨by decide, by decide, by decide⟩

/-- C6 (amended): the graph_builders.py copy of `_lemmatize` implements
exactly the claimed heuristic (including the `-ss` guard); the
graph_rag_service.py copy omits the guard.  The two copies agree on every
token except those longer than three characters ending in "ss", where the
graph_builders.py copy returns the token unchanged and the
graph_rag_service.py copy strips the trailing "s". -/
theorem c6_lemmatize_copies (t : String) :
    GraphBuilders.lemmatize t = lemmatizeSpec t ∧
    (¬(strEndsWith t "ss" = true ∧ 3 < strLen t) →
      GraphBuilders.lemmatize t = GraphRag.lemmatize t) ∧
    (strEndsWith t "ss" = true → 3 < strLen t →
      GraphBuilders.lemmatize t = t ∧ GraphRag.lemmatize t = strDropRight t 1) := by
  refine ⟨rfl, ?_, ?_⟩
  · intro hno
    unfold GraphBuilders.lemmatize GraphRag.lemmatize
    by_cases c1 : (strEndsWith t "ies" && decide (3 < strLen t)) = true
    · rw [if_pos c1, if_pos c1]
    · rw [if_neg c1, if_neg c1]
      by_cases c2 : (strEndsWith t "ing" && decide (4 < strLen t)) = true
      · rw [if_pos c2, if_pos c2]
      · rw [if_neg c2, if_neg c2]
        by_cases c3 : (strEndsWith t "ed" && decide (3 < strLen t)) = true
        · rw [if_pos c3, if_pos c3]
        · rw [if_neg c3, if_neg c3]
          by_cases c4 : (strEndsWith t "s" && decide (3 < strLen t)) = true
          · have hl4 : 3 < strLen t := by
              simp only [Bool.and_eq_true, decide_eq_true_eq] at c4
              exact c4.2
            have hssf : strEndsWith t "ss" = false := by
              cases hv : strEndsWith t "ss" with
              | false => rfl
              | true => exact absurd ⟨hv, hl4⟩ hno
            rw [if_pos (show (strEndsWith t "s" && decide (3 < strLen t) &&
                !strEndsWith t "ss") = true by simp [c4, hssf]), if_pos c4]
          · rw [if_neg (show ¬(strEndsWith t "s" && decide (3 < strLen t) &&
                !strEndsWith t "ss") = true by
                intro hcon
                simp only [Bool.and_eq_true, decide_eq_true_eq] at hcon
                exact c4 (by simp [hcon.1.1, hcon.1.2])), if_neg c4]
  · intro hss hlen
    have hies : strEndsWith t "ies" = false := by
      cases hval : strEndsWith t "ies" with
      | false => rfl
      | true => exact absurd (ss_not_ies t hss hval) not_false
    have hing : strEndsWith t "ing" = false := by
      cases hval : strEndsWith t "ing" with
      | false => rfl
      | true => exact absurd (ss_not_ing t hss hval) not_false
    have hed : strEndsWith t "ed" = false := by
      cases hval : strEndsWith t "ed" with
      | false => rfl
      | true => exact absurd (ss_not_ed t hss hval) not_false
    have hse : strEndsWith t "s" = true := ss_ends_s t hss
    constructor
    · unfold GraphBuilders.lemmatize
      simp [hies, hing, hed, hss]
    · unfold GraphRag.lemmatize
      simp [hies, hing, hed, hse, hlen]

/-- Witness for C6 (amended): the copies agree on "cats" (no "ss" suffix)
and disagree exactly as described on "class". -/
theorem c6_witness :
    (¬(strEndsWith "cats" "ss" = true ∧ 3 < strLen "cats")) ∧
    GraphBuilders.lemmatize "cats" = GraphRag.lemmatize "cats" ∧
    strEndsWith "class" "ss" = true ∧ 3 < strLen "class" ∧
    (GraphBuilders.lemmatize "class" = "class" ∧
      GraphRag.lemmatize "class" = strDropRight "class" 1) :=
  ⟨by decide, (c6_lemmatize_copies "cats").2.1 (by decide), by decide, by decide,
    (c6_lemmatize_copies "class").2.2 (by decide) (by decide)⟩

/-- Counterexample to C7 as stated: with the neo4j backend explicitly
requested and the driver importable, a missing password makes
`create_graph_store` silently return no store instead of raising a
configuration error. -/
theorem c7_counterexample :
    GraphStore.create_graph_store "neo4j" true none none none 500 = Except.ok none := rfl

/-- C7 (amended): `create_graph_store` returns no store — never an error —
when the driver is unavailable, when the backend has no registered factory,
and also when the password is missing with the backend explicitly requested
and the driver present; the only construction-time configuration error in
the module is the RuntimeError raised by `Neo4jGraphStore.__init__` when the
neo4j driver is not installed. -/
theorem c7_graph_store_construction (uri user pw : Option String) (bs : Nat)
    (backend : String) (hn : Bool) (hb : backend ≠ "neo4j")
    (hpw : optStrTruthy pw = false) (u us p : String) (b : Nat) :
    GraphStore.create_graph_store "neo4j" false uri user pw bs = Except.ok none ∧
    GraphStore.create_graph_store backend hn uri user pw bs = Except.ok none ∧
    GraphStore.create_graph_store "neo4j" true uri user pw bs = Except.ok none ∧
    GraphStore.neo4jStoreInit false u us p b =
      Except.error "neo4j driver is not installed" := by
  refine ⟨rfl, ?_, ?_, rfl⟩
  · unfold GraphStore.create_graph_store
    rw [if_neg hb]
  · simp [GraphStore.create_graph_store, GraphStore.neo4j_factory, hpw]

/-- Witness for C7 (amended) at concrete arguments. -/
theorem c7_witness :
    (("qdrant" : String) ≠ "neo4j") ∧
    (optStrTruthy (none : Option String) = false) ∧
    (GraphStore.create_graph_store "neo4j" false none (some "neo4j") none 500 =
        Except.ok none ∧
      GraphStore.create_graph_store "qdrant" true none (some "neo4j") none 500 =
        Except.ok none ∧
      GraphStore.create_graph_store "neo4j" true none (some "neo4j") none 500 =
        Except.ok none ∧
      GraphStore.neo4jStoreInit false "bolt://localhost:7687" "neo4j" "pw" 500 =
        Except.error "neo4j driver is not installed") :=
  ⟨by decide, rfl,
    c7_graph_store_construction none (some "neo4j") none 500 "qdrant" true
      (by decide) rfl "bolt://localhost:7687" "neo4j" "pw" 500⟩

/-- C8: in simple mode, a course with non-blank title and description and
S, O, M non-blank entries in its skills, learning objectives and provided
materials lists yields exactly S + O + M + 2 chunks; missing or blank-only
fields contribute nothing. -/
theorem c8_simple_mode_chunk_count (maxChars : Option Nat) (course : Course)
    (ht : (pyStrip (course.title.getD "")).isEmpty = false)
    (hd : (pyStrip (course.description.getD "")).isEmpty = false) :
    (ChunkBuilder.build_simple_chunks maxChars course).length =
      nonBlankCount course.skills + nonBlankCount course.learning_objectives +
        nonBlankCount course.provided_materials + 2 := by
  unfold ChunkBuilder.build_simple_chunks ChunkBuilder.singleFieldChunk
  simp [List.length_append, listFieldChunks_length, ht, hd]
  omega

/-- A concrete course for the C8 witness: two non-blank skills (one blank
entry is skipped), no objectives, one material, title and description. -/
def c8Course : Course :=
  { title := some "T", description := some "D",
    skills := some ["a", "  ", "b"], learning_objectives := some [],
    provided_materials := some ["m"] }

/-- Witness for C8 at the concrete course (2 + 0 + 1 + 2 = 5 chunks). -/
theorem c8_witness :
    ((pyStrip (c8Course.title.getD "")).isEmpty = false) ∧
    ((pyStrip (c8Course.description.getD "")).isEmpty = false) ∧
    (ChunkBuilder.build_simple_chunks none c8Course).length =
      nonBlankCount c8Course.skills + nonBlankCount c8Course.learning_objectives +
        nonBlankCount c8Course.provided_materials + 2 :=
  ⟨rfl, rfl, c8_simple_mode_chunk_count none c8Course rfl rfl⟩

/-- C9: constructing `GraphRAGService` with any resolved provider other than
"chroma" (whether passed as an argument or taken from the environment
default) raises a ValueError before any store is created. -/
theorem c9_non_chroma_provider_rejected
    (provider envProvider envPersist envKg envChunk : Option String)
    (h : (if optStrTruthy provider then provider.getD ""
          else envProvider.getD "chroma") ≠ "chroma") :
    GraphRag.serviceInit provider envProvider envPersist envKg envChunk =
      Except.error "GraphRAG is currently supported only with the Chroma provider" := by
  unfold GraphRag.serviceInit
  rw [if_pos h]

/-- Witness for C9 with the provider argument "qdrant". -/
theorem c9_witness :
    ((if optStrTruthy (some "qdrant") then (some "qdrant" : Option String).getD ""
      else (none : Option String).getD "chroma") ≠ "chroma") ∧
    GraphRag.serviceInit (some "qdrant") none none none none =
      Except.error "GraphRAG is currently supported only with the Chroma provider" :=
  ⟨by decide, c9_non_chroma_provider_rejected (some "qdrant") none none none none
    (by decide)⟩

/-- C10: appending a course without a (truthy) title to the corpus leaves
`top_tokens`, `candidate_phrases` and `term_clusters` of the analytics build
unchanged, whatever its other fields contain. -/
theorem c10_untitled_course_inert (haveSk : Bool) (stop : String → Bool)
    (oracle : List String → List Nat) (cs : List Course) (c : Course)
    (hc : optStrTruthy c.title = false) :
    (GraphBuilders.analytics_build haveSk stop oracle (cs ++ [c])).top_tokens =
      (GraphBuilders.analytics_build haveSk stop oracle cs).top_tokens ∧
    (GraphBuilders.analytics_build haveSk stop oracle (cs ++ [c])).candidate_phrases =
      (GraphBuilders.analytics_build haveSk stop oracle cs).candidate_phrases ∧
    (GraphBuilders.analytics_build haveSk stop oracle (cs ++ [c])).term_clusters =
      (GraphBuilders.analytics_build haveSk stop oracle cs).term_clusters := by
  have hrec : GraphBuilders.build_records stop (cs ++ [c]) =
      GraphBuilders.build_records stop cs := by
    unfold GraphBuilders.build_records
    rw [List.filterMap_append]
    simp [hc]
  unfold GraphBuilders.analytics_build
  rw [hrec]
  exact ⟨rfl, rfl, rfl⟩

/-- An untitled course with non-empty text fields. -/
def untitledCourse : Course :=
  { skills := some ["weaving"], description := some "A class." }

/-- Witness for C10: appending an untitled course with rich fields to the
worked-example corpus changes nothing. -/
theorem c10_witness :
    (optStrTruthy untitledCourse.title = false) ∧
    ((GraphBuilders.analytics_build true (fun _ => false) (fun _ => [])
        ([sourdoughCourse] ++ [untitledCourse])).top_tokens =
      (GraphBuilders.analytics_build true (fun _ => false) (fun _ => [])
        [sourdoughCourse]).top_tokens ∧
    (GraphBuilders.analytics_build true (fun _ => false) (fun _ => [])
        ([sourdoughCourse] ++ [untitledCourse])).candidate_phrases =
      (GraphBuilders.analytics_build true (fun _ => false) (fun _ => [])
        [sourdoughCourse]).candidate_phrases ∧
    (GraphBuilders.analytics_build true (fun _ => false) (fun _ => [])
        ([sourdoughCourse] ++ [untitledCourse])).term_clusters =
      (GraphBuilders.analytics_build true (fun _ => false) (fun _ => [])
        [sourdoughCourse]).term_clusters) :=
  ⟨rfl, c10_untitled_course_inert true (fun _ => false) (fun _ => [])
    [sourdoughCourse] untitledCourse rfl⟩
